import Mathlib

/-!
# Verification of the voxpilot agent core

Shallow embedding of the voxpilot backend's agent execution core:
the session stream/confirmation registry (`services/streams.py`), the
agent loop (`services/agent.py`), and the sandboxed tool framework
(`services/tools/`).  Python dicts become function maps, `asyncio.Queue`
contents become lists, and the filesystem / provider / JSON library
boundaries become explicit model parameters.
-/

namespace VoxPilot

/-- Truthiness of an optional string, as Python evaluates
`if delta.content:` — `None` and `""` are falsy. -/
def truthyStr : Option String → Bool
  | none => false
  | some s => s ≠ ""

/-- Pointwise update of a string-keyed map (`d[k] = v`). -/
def mapSet {α : Type} (m : String → Option α) (k : String) (v : α) :
    String → Option α :=
  fun s => if s = k then some v else m s

/-- Pointwise removal from a string-keyed map (`d.pop(k, None)`). -/
def mapErase {α : Type} (m : String → Option α) (k : String) :
    String → Option α :=
  fun s => if s = k then none else m s

/- ## Stream registry (`services/streams.py`) -/

/-- Payload placed on a session's message queue by `POST /messages`
(`{"content": ..., "model": ..., "gh_token": ...}`). -/
structure MsgPayload where
  content : String
  model : String
  gh_token : String
deriving DecidableEq, Repr

/-- `SessionStreamRegistry` state: the three dicts of `streams.py`.
Queues are modelled by their current contents (FIFO lists, put = append).
The message queue carries `Option MsgPayload` because `None` is the
close sentinel. -/
structure SessionStreamRegistry where
  queues : String → Option (List (Option MsgPayload))
  confirm_queues : String → Option (List Bool)
  pending_confirm : String → Option String

/-- The freshly constructed registry (`__init__`). -/
def SessionStreamRegistry.init : SessionStreamRegistry :=
  { queues := fun _ => none
    confirm_queues := fun _ => none
    pending_confirm := fun _ => none }

/-- `register(session_id)`: create and register a fresh (empty) queue. -/
def SessionStreamRegistry.register (r : SessionStreamRegistry) (sid : String) :
    SessionStreamRegistry :=
  { r with queues := mapSet r.queues sid [] }

/-- `unregister(session_id)`: drop the queue (no-op if absent). -/
def SessionStreamRegistry.unregister (r : SessionStreamRegistry) (sid : String) :
    SessionStreamRegistry :=
  { r with queues := mapErase r.queues sid }

/-- `get(session_id)`. -/
def SessionStreamRegistry.get (r : SessionStreamRegistry) (sid : String) :
    Option (List (Option MsgPayload)) :=
  r.queues sid

/-- `send(session_id, payload)`: put on the queue if registered,
else return `False` with no side effect. -/
def SessionStreamRegistry.send (r : SessionStreamRegistry) (sid : String)
    (payload : Option MsgPayload) : Bool × SessionStreamRegistry :=
  match r.queues sid with
  | none => (false, r)
  | some q => (true, { r with queues := mapSet r.queues sid (q ++ [payload]) })

/-- `register_confirm(session_id)`: fresh confirmation queue, and clear
any stale pending id. -/
def SessionStreamRegistry.register_confirm (r : SessionStreamRegistry) (sid : String) :
    SessionStreamRegistry :=
  { r with
      confirm_queues := mapSet r.confirm_queues sid []
      pending_confirm := mapErase r.pending_confirm sid }

/-- `unregister_confirm(session_id)`: drop the confirmation queue and
the pending id. -/
def SessionStreamRegistry.unregister_confirm (r : SessionStreamRegistry) (sid : String) :
    SessionStreamRegistry :=
  { r with
      confirm_queues := mapErase r.confirm_queues sid
      pending_confirm := mapErase r.pending_confirm sid }

/-- `set_pending_confirm(session_id, tool_call_id)`. -/
def SessionStreamRegistry.set_pending_confirm (r : SessionStreamRegistry)
    (sid tid : String) : SessionStreamRegistry :=
  { r with pending_confirm := mapSet r.pending_confirm sid tid }

/-- `put_confirm(session_id, tool_call_id, approved)`: resolve a pending
confirmation.  Returns `False` (state untouched) if no confirmation
queue exists or the pending id does not equal `tool_call_id`
(`pending != tool_call_id`, where a missing pending id never equals a
string); on a match, clears the pending id and enqueues `approved`. -/
def SessionStreamRegistry.put_confirm (r : SessionStreamRegistry)
    (sid tid : String) (approved : Bool) : Bool × SessionStreamRegistry :=
  match r.confirm_queues sid with
  | none => (false, r)
  | some q =>
    if r.pending_confirm sid = some tid then
      (true,
        { r with
            pending_confirm := mapErase r.pending_confirm sid
            confirm_queues := mapSet r.confirm_queues sid (q ++ [approved]) })
    else (false, r)

/-- `get_confirm_queue(session_id)`. -/
def SessionStreamRegistry.get_confirm_queue (r : SessionStreamRegistry) (sid : String) :
    Option (List Bool) :=
  r.confirm_queues sid

/- ## Stream handler teardown (modelled from the spec) -/

/-- How a session's stream handler exits. -/
inductive StreamExit where
  | normal
  | error
  | cancelled
deriving DecidableEq, Repr

/-- Modelled from the spec: the confirmation-aware stream handler's
teardown (`stream_session`'s `finally` block once the handler also owns a
confirmation-queue registration) is not under `src/`; only the message-queue
half is (`chat.py` line 191, `registry.unregister(session_id)`).  Per §5 of
the spec, teardown on every exit mode unconditionally releases both the
message-queue registration and the confirmation-queue registration
(with its pending id), using the registry operations of `streams.py`. -/
def streamTeardown (r : SessionStreamRegistry) (sid : String)
    (_exit : StreamExit) : SessionStreamRegistry :=
  (r.unregister sid).unregister_confirm sid

/- ## Agent loop data (`services/agent.py`, `models/schemas.py`) -/

/-- `ToolCallInfo` (id, name, arguments). -/
structure ToolCallInfo where
  id : String
  name : String
  arguments : String
deriving DecidableEq, Repr

/-- `ChatMessage` as consumed by `_to_message_param`. -/
structure ChatMessage where
  role : String
  content : String
  tool_calls : Option (List ToolCallInfo) := none
  tool_call_id : Option String := none
deriving DecidableEq, Repr

/-- OpenAI-SDK-shaped message (the running `openai_messages` list). -/
inductive OpenAIMsg where
  | system (content : String)
  | user (content : String)
  | assistant (content : Option String) (tool_calls : Option (List ToolCallInfo))
  | tool (content : String) (tool_call_id : String)
deriving DecidableEq, Repr

/-- `_to_message_param`: convert a ChatMessage to an OpenAI message param.
For an assistant message with truthy `tool_calls`, `content` becomes
`m.content or None`. -/
def toMessageParam (m : ChatMessage) : OpenAIMsg :=
  if m.role = "system" then .system m.content
  else if m.role = "tool" then .tool m.content (m.tool_call_id.getD "")
  else if m.role = "assistant" then
    match m.tool_calls with
    | some tcs =>
      if tcs ≠ [] then
        .assistant (if m.content = "" then none else some m.content) (some tcs)
      else .assistant (some m.content) none
    | none => .assistant (some m.content) none
  else .user m.content

/-- `tc_delta.function`: partial name and partial arguments. -/
structure FuncDelta where
  name : Option String
  arguments : Option String
deriving DecidableEq, Repr

/-- One incremental tool-call delta inside a streamed chunk. -/
structure ToolCallDelta where
  index : Nat
  id : Option String
  function : Option FuncDelta
deriving DecidableEq, Repr

/-- `choice.delta` of a streamed chunk. -/
structure ChoiceDelta where
  content : Option String
  tool_calls : Option (List ToolCallDelta)
deriving DecidableEq, Repr

/-- One choice of a streamed chunk. -/
structure Choice where
  delta : ChoiceDelta
  finish_reason : Option String
deriving DecidableEq, Repr

/-- One streamed provider chunk (`ChatCompletionChunk`). -/
structure Chunk where
  choices : List Choice
  model : Option String
deriving DecidableEq, Repr

/-- `_StreamedToolCall`: accumulate incremental tool-call deltas. -/
structure StreamedToolCall where
  id : String
  name : String
  arguments : String
deriving DecidableEq, Repr

/-- `while len(tool_calls) <= idx: tool_calls.append(_StreamedToolCall("", ""))` -/
def extendTo (tcs : List StreamedToolCall) (idx : Nat) : List StreamedToolCall :=
  tcs ++ List.replicate (idx + 1 - tcs.length) ⟨"", "", ""⟩

/-- Apply one tool-call delta: last-write-wins for truthy `id`/`name`,
concatenation for `arguments` (lines 159–171 of `agent.py`). -/
def applyToolCallDelta (tcs : List StreamedToolCall) (d : ToolCallDelta) :
    List StreamedToolCall :=
  let tcs := extendTo tcs d.index
  let tc := tcs.getD d.index ⟨"", "", ""⟩
  let tc := if truthyStr d.id then { tc with id := d.id.getD "" } else tc
  let tc :=
    match d.function with
    | none => tc
    | some f =>
      let tc := if truthyStr f.name then { tc with name := f.name.getD "" } else tc
      if truthyStr f.arguments then
        { tc with arguments := tc.arguments ++ f.arguments.getD "" }
      else tc
  tcs.set d.index tc

/-- The typed events the loop yields on the SSE stream. -/
inductive AgentEvent where
  | textDelta (content : String)
  | toolCall (id name arguments : String)
  | toolConfirm (id name arguments : String)
  | toolResult (id name content : String) (is_error : Bool)
  | done (model : String)
  | error (message : String)
deriving DecidableEq, Repr

/-- One `add_message(db, session_id, role, content, tool_calls, tool_call_id)`
call; the `tool_calls` JSON text is recorded as the list it serializes. -/
structure PersistedMsg where
  role : String
  content : String
  tool_calls : Option (List ToolCallInfo) := none
  tool_call_id : Option String := none
deriving DecidableEq, Repr

/-- Python `str.startswith`, used to derive `is_error` from a result text. -/
def startswith (s pre : String) : Bool := pre.data.isPrefixOf s.data

/-- Consumption accumulator: `model_name`, `accumulated_text`,
`tool_calls`, `finish_reason` (lines 121–124 of `agent.py`). -/
structure ConsumeAcc where
  model_name : String
  accumulated_text : String
  tool_calls : List StreamedToolCall
  finish_reason : Option String
deriving DecidableEq, Repr

/-- Whether fragment consumption ran the chunks to exhaustion or was cut
short by the disconnect predicate. -/
inductive ConsumeKind where
  | disconnected
  | exhausted
deriving DecidableEq, Repr

/-- Result of consuming a provider stream's chunks. -/
structure ConsumeOut where
  kind : ConsumeKind
  acc : ConsumeAcc
  events : List AgentEvent
  counter : Nat
deriving DecidableEq, Repr

/-- Process one chunk (lines 139–176 of `agent.py`): empty `choices`
only updates the model name; otherwise accumulate a truthy text delta
(emitting a `text-delta` event), fold truthy tool-call deltas, and record
truthy `finish_reason` / `model`. -/
def processChunk (acc : ConsumeAcc) (chunk : Chunk) : ConsumeAcc × List AgentEvent :=
  match chunk.choices.head? with
  | none =>
    (if truthyStr chunk.model then { acc with model_name := chunk.model.getD "" } else acc,
     [])
  | some choice =>
    let delta := choice.delta
    let (acc, evs) :=
      if truthyStr delta.content then
        ({ acc with accumulated_text := acc.accumulated_text ++ delta.content.getD "" },
         [AgentEvent.textDelta (delta.content.getD "")])
      else (acc, [])
    let acc :=
      match delta.tool_calls with
      | some tds =>
        if tds ≠ [] then { acc with tool_calls := tds.foldl applyToolCallDelta acc.tool_calls }
        else acc
      | none => acc
    let acc :=
      if truthyStr choice.finish_reason then { acc with finish_reason := choice.finish_reason }
      else acc
    let acc :=
      if truthyStr chunk.model then { acc with model_name := chunk.model.getD "" } else acc
    (acc, evs)

/-- Consume a chunk list, polling the disconnect predicate before each
chunk (line 136); the predicate is determinized by a poll counter. -/
def consumeChunks (isDisc : Option (Nat → Bool)) :
    List Chunk → Nat → ConsumeAcc → ConsumeOut
  | [], c, acc => ⟨.exhausted, acc, [], c⟩
  | chunk :: rest, c, acc =>
    let disc := match isDisc with
      | some d => d c
      | none => false
    if disc then ⟨.disconnected, acc, [], c⟩
    else
      let (acc, evs) := processChunk acc chunk
      let out := consumeChunks isDisc rest (c + 1) acc
      { out with events := evs ++ out.events }

/-- One scripted provider call: the chunks delivered, then an optional
exception message raised during consumption (`none` = exhausted). -/
structure ProviderResult where
  chunks : List Chunk
  exc : Option String := none

/-- A registry entry as the loop sees it: the confirmation flag and
`execute` applied to parsed arguments (of model type `J`). -/
structure MTool (J : Type) where
  requires_confirmation : Bool
  execute : J → String

/-- The loop's environment: the scripted provider, the registry, and the
JSON / disconnect / confirmation collaborators of `run_agent_loop`. -/
structure LoopCfg (J : Type) where
  provider : Nat → ProviderResult
  model : String
  max_iterations : Nat := 25
  is_disconnected : Option (Nat → Bool) := none
  request_confirmation : Option (String → String → String → Bool) := none
  registry_get : String → Option (MTool J)
  json_loads : String → Option J
  json_empty : J

/-- The observable loop state: the running `openai_messages` list, the
yielded events, the `add_message` persistence log, and the disconnect
poll counter. -/
structure LoopSt where
  openai_messages : List OpenAIMsg
  events : List AgentEvent
  persisted : List PersistedMsg
  counter : Nat
deriving DecidableEq, Repr

/-- Shared tail of tool dispatch (lines 272–288 and 306–332): yield the
`tool-result` event, persist the tool message, append it to the running
conversation. -/
def emitToolResult (st : LoopSt) (tc : StreamedToolCall)
    (result_text : String) (is_error : Bool) : LoopSt :=
  { st with
      events := st.events ++ [.toolResult tc.id tc.name result_text is_error]
      persisted := st.persisted ++ [⟨"tool", result_text, none, some tc.id⟩]
      openai_messages := st.openai_messages ++ [.tool result_text tc.id] }

/-- Dispatch one accumulated tool call (lines 234–332): yield `tool-call`,
resolve in the registry, run the confirmation gate if required, then
parse arguments and execute. -/
def dispatchToolCall {J : Type} (cfg : LoopCfg J) (st : LoopSt)
    (tc : StreamedToolCall) : LoopSt :=
  let st := { st with events := st.events ++ [.toolCall tc.id tc.name tc.arguments] }
  match cfg.registry_get tc.name with
  | none =>
    emitToolResult st tc ("Error: unknown tool '" ++ tc.name ++ "'.") true
  | some tool =>
    let confirmed :=
      if tool.requires_confirmation then
        let st := { st with events := st.events ++ [.toolConfirm tc.id tc.name tc.arguments] }
        let approved :=
          match cfg.request_confirmation with
          | none => false
          | some f => f tc.id tc.name tc.arguments
        if approved = false then
          Sum.inl (emitToolResult st tc "Error: user declined to run this tool." true)
        else Sum.inr st
      else Sum.inr st
    match confirmed with
    | Sum.inl declined => declined
    | Sum.inr st =>
      let (result_text, is_error) :=
        if tc.arguments = "" then
          let r := tool.execute cfg.json_empty
          (r, startswith r "Error:")
        else
          match cfg.json_loads tc.arguments with
          | none =>
            ("Error: failed to parse arguments for tool '" ++ tc.name ++ "': "
              ++ tc.arguments, true)
          | some args =>
            let r := tool.execute args
            (r, startswith r "Error:")
      emitToolResult st tc result_text is_error

/-- The iteration loop (`for _iteration in range(max_iterations)` plus the
post-loop cap error), with `fuel` the remaining iterations and `iter` the
current iteration index feeding the scripted provider. -/
def runIterations {J : Type} (cfg : LoopCfg J) : Nat → Nat → LoopSt → LoopSt
  | 0, _iter, st =>
    { st with
        events := st.events ++
          [.error ("Agent loop exceeded maximum iterations ("
            ++ toString cfg.max_iterations ++ ").")] }
  | fuel + 1, iter, st =>
    let pr := cfg.provider iter
    let out := consumeChunks cfg.is_disconnected pr.chunks st.counter
      ⟨cfg.model, "", [], none⟩
    match out.kind with
    | .disconnected =>
      { st with events := st.events ++ out.events, counter := out.counter }
    | .exhausted =>
      let st := { st with events := st.events ++ out.events, counter := out.counter }
      let acc := out.acc
      match pr.exc with
      | some msg =>
        let st :=
          if acc.accumulated_text ≠ "" then
            { st with persisted := st.persisted ++ [⟨"assistant", acc.accumulated_text, none, none⟩] }
          else st
        { st with events := st.events ++ [.error msg] }
      | none =>
        if acc.finish_reason = some "tool_calls" ∧ acc.tool_calls ≠ [] then
          let tool_call_infos := acc.tool_calls.map
            (fun tc => ToolCallInfo.mk tc.id tc.name tc.arguments)
          let st :=
            { st with
                persisted := st.persisted ++
                  [⟨"assistant", acc.accumulated_text, some tool_call_infos, none⟩]
                openai_messages := st.openai_messages ++
                  [.assistant
                    (if acc.accumulated_text = "" then none else some acc.accumulated_text)
                    (some tool_call_infos)] }
          let st := acc.tool_calls.foldl (dispatchToolCall cfg) st
          runIterations cfg fuel (iter + 1) st
        else
          let st :=
            if acc.accumulated_text ≠ "" then
              { st with persisted := st.persisted ++ [⟨"assistant", acc.accumulated_text, none, none⟩] }
            else st
          { st with events := st.events ++ [.done acc.model_name] }

/-- `run_agent_loop`: convert the history, then iterate. -/
def run_agent_loop {J : Type} (cfg : LoopCfg J) (messages : List ChatMessage) : LoopSt :=
  runIterations cfg cfg.max_iterations 0
    ⟨messages.map toMessageParam, [], [], 0⟩

/- ## Filesystem model and path handling (`services/tools/base.py`) -/

/-- A `pathlib.Path` as parsed: absoluteness flag plus components. -/
structure RawPath where
  absolute : Bool
  comps : List String
deriving DecidableEq, Repr

/-- Split a character list on a separator (kernel-reducible analogue of
`str.split`). -/
def splitChar (sep : Char) : List Char → List Char → List String
  | [], cur => [⟨cur.reverse⟩]
  | c :: rest, cur =>
    if c = sep then (⟨cur.reverse⟩ : String) :: splitChar sep rest []
    else splitChar sep rest (c :: cur)

/-- `Path(s)`: split on `/`, drop empty and `.` components, leading `/`
makes it absolute. -/
def parsePath (s : String) : RawPath :=
  ⟨(match s.data with
    | c :: _ => c = '/'
    | [] => false),
   (splitChar '/' s.data []).filter (fun c => c ≠ "" && c ≠ ".")⟩

/-- `work_dir / raw`: pathlib join — an absolute right side replaces
the left side. -/
def joinPath (wd raw : RawPath) : RawPath :=
  if raw.absolute then raw else ⟨wd.absolute, wd.comps ++ raw.comps⟩

/-- `p.relative_to(base)` succeeds iff `base`'s parts are a prefix of
`p`'s parts (same absoluteness). -/
def relativeToOk (p base : RawPath) : Bool :=
  p.absolute = base.absolute && base.comps.isPrefixOf p.comps

/-- The relative display string `p.relative_to(base)` (components of `p`
past `base`, `.` when they coincide). -/
def relStr (base : RawPath) (parts : List String) : String :=
  let rel := parts.drop base.comps.length
  if rel = [] then "." else String.intercalate "/" rel

/-- A filesystem walk entry (from `rglob`/`glob`): full components plus
the `is_file` flag. -/
structure FsEntry where
  parts : List String
  is_file : Bool
deriving DecidableEq, Repr

/-- A directory child (from `iterdir`): name plus the `is_dir` flag. -/
structure DirEntry where
  name : String
  is_dir : Bool
deriving DecidableEq, Repr

/-- The OS / stdlib boundary the tools call into.  `resolve` canonicalizes
(absolutizes, eliminates `..`, follows symlinks), so a symlink's target may
lie anywhere; `read_text` and `iterdir` report `OSError` as `.error msg`;
`glob` reports `ValueError` for a bad pattern; `match_glob` is
`PurePath.match`. -/
structure FSModel where
  resolve : RawPath → RawPath
  pexists : RawPath → Bool
  is_file : RawPath → Bool
  is_dir : RawPath → Bool
  st_size : RawPath → Nat
  read_text : RawPath → Except String String
  iterdir : RawPath → Except String (List DirEntry)
  rglob_all : RawPath → List FsEntry
  glob : RawPath → String → Except String (List FsEntry)
  match_glob : FsEntry → String → Bool

/-- `Tool._resolve_path`: resolve `(work_dir / raw)` following symlinks and
validate via `relative_to(work_dir.resolve())`; `None` when it escapes. -/
def toolResolvePath (fs : FSModel) (raw : String) (work_dir : RawPath) :
    Option RawPath :=
  let resolved := fs.resolve (joinPath work_dir (parsePath raw))
  if relativeToOk resolved (fs.resolve work_dir) then some resolved else none

/-- Lexicographic `≤` on component lists (how `sorted()` orders paths). -/
def lexLe : List String → List String → Bool
  | [], _ => true
  | _ :: _, [] => false
  | a :: as, b :: bs => if a = b then lexLe as bs else decide (a < b)

/-- Stable insertion of one element into a sorted list. -/
def insertLe {α : Type} (le : α → α → Bool) (x : α) : List α → List α
  | [] => [x]
  | y :: ys => if le x y then x :: y :: ys else y :: insertLe le x ys

/-- `sorted()`: a structurally recursive stable sort by `le`. -/
def sortLe {α : Type} (le : α → α → Bool) (l : List α) : List α :=
  l.foldr (insertLe le) []

/-- `sorted()` over walk entries. -/
def sortEntries (es : List FsEntry) : List FsEntry :=
  sortLe (fun a b => lexLe a.parts b.parts) es

/-- Python `f"{n:,}"`: decimal digits grouped in threes by commas. -/
def commaGroup : List Char → List Char
  | a :: b :: c :: rest@(_ :: _) => a :: b :: c :: ',' :: commaGroup rest
  | l => l

/-- `f"{n:,}"` for a natural number. -/
def commaFmt (n : Nat) : String :=
  ⟨(commaGroup (toString n).data.reverse).reverse⟩

/-- `f"{i:{width}d}"`: right-align in `width` with spaces. -/
def padNum (i : Int) (width : Nat) : String :=
  let s := toString i
  ⟨List.replicate (width - s.length) ' '⟩ ++ s

/-- Python `str.splitlines` (universal-newline variants aside): split on
`"\n"`, without a trailing empty piece, and `[]` for the empty string. -/
def splitlines (s : String) : List String :=
  if s.data = [] then []
  else
    let parts := splitChar '\n' s.data []
    if s.data.getLast? = some '\n' then parts.dropLast else parts

/-- The noise-directory denylist `_SKIP_DIRS`. -/
def SKIP_DIRS : List String :=
  [".git", "__pycache__", "node_modules", ".venv", "venv",
   ".mypy_cache", ".pytest_cache", ".ruff_cache"]

/- ## read_file (`services/tools/read_file.py`) -/

/-- `MAX_FILE_SIZE = 100_000`. -/
def MAX_FILE_SIZE : Nat := 100000

/-- Arguments of `read_file` / `read_file_external`; `none` models an
absent key (`arguments.get`). -/
structure ReadFileArgs where
  path : String := ""
  start_line : Option Int := none
  end_line : Option Int := none
deriving DecidableEq, Repr

/-- The line-numbering tail shared verbatim by `read_file` and
`read_file_external` (clamping, range check, rendering). -/
def renderFileText (raw_path text : String) (startArg endArg : Option Int) : String :=
  let lines := splitlines text
  let total : Int := lines.length
  let start0 := startArg.getD 1
  let end0 := endArg.getD total
  let start := max 1 start0
  let stop := min total end0
  if start > stop then
    "Error: start_line (" ++ toString start ++ ") > end_line ("
      ++ toString stop ++ "). File has " ++ toString total ++ " lines."
  else
    let selected := ((lines.drop (start - 1).toNat).take (stop - (start - 1)).toNat)
    let width := (toString stop).length
    let numbered := selected.enum.map
      (fun p => padNum (start + p.1) width ++ " | " ++ p.2)
    "File: " ++ raw_path ++ " (lines " ++ toString start ++ "-" ++ toString stop
      ++ " of " ++ toString total ++ ")\n" ++ String.intercalate "\n" numbered

/-- `ReadFileTool.execute`. -/
def readFileExecute (fs : FSModel) (args : ReadFileArgs) (work_dir : RawPath) : String :=
  let raw_path := args.path
  if raw_path = "" then "Error: 'path' argument is required."
  else
    match toolResolvePath fs raw_path work_dir with
    | none => "Error: path '" ++ raw_path ++ "' is outside the working directory."
    | some resolved =>
      if fs.pexists resolved = false then
        "Error: file '" ++ raw_path ++ "' does not exist."
      else if fs.is_file resolved = false then
        "Error: '" ++ raw_path ++ "' is not a file."
      else
        let size := fs.st_size resolved
        if size > MAX_FILE_SIZE then
          "Error: file '" ++ raw_path ++ "' is " ++ commaFmt size
            ++ " bytes (limit is " ++ commaFmt MAX_FILE_SIZE
            ++ " bytes). Use start_line/end_line to read a portion."
        else
          match fs.read_text resolved with
          | .error exc => "Error reading '" ++ raw_path ++ "': " ++ exc
          | .ok text => renderFileText raw_path text args.start_line args.end_line

/- ## read_file_external (`services/tools/read_file_external.py`) -/

/-- `ReadFileExternalTool.execute` (no sandbox containment;
`requires_confirmation = True`). -/
def readFileExternalExecute (fs : FSModel) (args : ReadFileArgs) : String :=
  let raw_path := args.path
  if raw_path = "" then "Error: 'path' argument is required."
  else
    let resolved := fs.resolve (parsePath raw_path)
    if resolved.absolute = false then
      "Error: path '" ++ raw_path ++ "' must be absolute."
    else if fs.pexists resolved = false then
      "Error: file '" ++ raw_path ++ "' does not exist."
    else if fs.is_file resolved = false then
      "Error: '" ++ raw_path ++ "' is not a file."
    else
      let size := fs.st_size resolved
      if size > MAX_FILE_SIZE then
        "Error: file '" ++ raw_path ++ "' is " ++ commaFmt size
          ++ " bytes (limit is " ++ commaFmt MAX_FILE_SIZE
          ++ " bytes). Use start_line/end_line to read a portion."
      else
        match fs.read_text resolved with
        | .error exc => "Error reading '" ++ raw_path ++ "': " ++ exc
        | .ok text => renderFileText raw_path text args.start_line args.end_line

/- ## list_directory (`services/tools/list_directory.py`) -/

/-- `MAX_ENTRIES = 500`. -/
def MAX_ENTRIES : Nat := 500

/-- Arguments of `list_directory`. -/
structure ListDirectoryArgs where
  path : String := "."
deriving DecidableEq, Repr

/-- `str.lower()` (character-wise). -/
def strToLower (s : String) : String :=
  ⟨s.data.map Char.toLower⟩

/-- Sort key `(not p.is_dir(), p.name.lower())`: directories first,
case-insensitively alphabetical within each group. -/
def dirEntryLe (a b : DirEntry) : Bool :=
  if a.is_dir = b.is_dir then decide (strToLower a.name ≤ strToLower b.name)
  else a.is_dir

/-- The entry loop of `ListDirectoryTool.execute`: skip denylisted
directories, suffix directories with `/`, cap with a truncation marker. -/
def listDirLines : List DirEntry → List String → List String
  | [], lines => lines
  | e :: rest, lines =>
    if SKIP_DIRS.contains e.name && e.is_dir then listDirLines rest lines
    else
      let lines := lines ++ [if e.is_dir then e.name ++ "/" else e.name]
      if lines.length ≥ MAX_ENTRIES then
        lines ++ ["... (truncated at " ++ toString MAX_ENTRIES ++ " entries)"]
      else listDirLines rest lines

/-- `ListDirectoryTool.execute`. -/
def listDirectoryExecute (fs : FSModel) (args : ListDirectoryArgs)
    (work_dir : RawPath) : String :=
  let raw_path := args.path
  match toolResolvePath fs raw_path work_dir with
  | none => "Error: path '" ++ raw_path ++ "' is outside the working directory."
  | some resolved =>
    if fs.pexists resolved = false then
      "Error: directory '" ++ raw_path ++ "' does not exist."
    else if fs.is_dir resolved = false then
      "Error: '" ++ raw_path ++ "' is not a directory."
    else
      match fs.iterdir resolved with
      | .error exc => "Error listing '" ++ raw_path ++ "': " ++ exc
      | .ok entries =>
        let sorted := sortLe dirEntryLe entries
        let lines := listDirLines sorted []
        if lines = [] then "Directory '" ++ raw_path ++ "' is empty."
        else
          "Directory: " ++ relStr (fs.resolve work_dir) resolved.comps ++ "/\n"
            ++ String.intercalate "\n" lines

/- ## grep_search (`services/tools/grep_search.py`) -/

/-- `MAX_MATCHES = 200`. -/
def MAX_MATCHES : Nat := 200

/-- `MAX_LINE_LENGTH = 500`. -/
def MAX_LINE_LENGTH : Nat := 500

/-- Arguments of `grep_search`. -/
structure GrepSearchArgs where
  pattern : String := ""
  path : String := "."
  include' : Option String := none
deriving DecidableEq, Repr

/-- `_is_likely_binary`, via `path.suffix.lower()`.  `pathSuffix` is
`PurePath.suffix` of a file name: the final dotted extension, empty for a
leading or trailing dot. -/
def pathSuffix (name : String) : String :=
  let cs := name.data
  match ((List.range cs.length).filter (fun i => cs.getD i ' ' = '.')).getLast? with
  | none => ""
  | some i => if 0 < i ∧ i + 1 < cs.length then ⟨cs.drop i⟩ else ""

/-- The binary-extension denylist of `_is_likely_binary`. -/
def BINARY_EXTS : List String :=
  [".png", ".jpg", ".jpeg", ".gif", ".bmp", ".ico", ".svg",
   ".woff", ".woff2", ".ttf", ".eot",
   ".zip", ".tar", ".gz", ".bz2", ".xz", ".7z",
   ".exe", ".dll", ".so", ".dylib", ".o", ".a",
   ".pyc", ".pyo", ".class", ".jar",
   ".db", ".sqlite", ".sqlite3",
   ".pdf", ".doc", ".docx", ".xls", ".xlsx",
   ".mp3", ".mp4", ".avi", ".mov", ".wav"]

/-- `_is_likely_binary(path)`. -/
def isLikelyBinary (e : FsEntry) : Bool :=
  BINARY_EXTS.contains (strToLower (pathSuffix (e.parts.getLastD "")))

/-- `_walk_files`: the searched-file list — a single file, or the sorted
recursive walk filtered by the skip-dir denylist, file-ness, the optional
include glob, and the binary heuristic. -/
def walkFiles (fs : FSModel) (root : RawPath) (include' : Option String) :
    List FsEntry :=
  if fs.is_file root then [⟨root.comps, true⟩]
  else
    (sortEntries (fs.rglob_all root)).filter (fun e =>
      !(e.parts.any (fun part => SKIP_DIRS.contains part)) &&
      e.is_file &&
      (match include' with
       | some inc => fs.match_glob e inc
       | none => true) &&
      !isLikelyBinary e)

/-- `line[:MAX_LINE_LENGTH]` plus the `...` clip marker. -/
def clipLine (line : String) : String :=
  let display : String := ⟨line.data.take MAX_LINE_LENGTH⟩
  if line.data.length > MAX_LINE_LENGTH then display ++ "..." else display

/-- The per-line match loop of one file: append `rel:line_no: display`
for each matching line; at `MAX_MATCHES` append the truncation marker and
signal early return. -/
def grepScanLines (search : String → Bool) (rel : String) :
    List (Nat × String) → List String → List String × Bool
  | [], ms => (ms, false)
  | (no, line) :: rest, ms =>
    if search line then
      let ms := ms ++ [rel ++ ":" ++ toString no ++ ": " ++ clipLine line]
      if ms.length ≥ MAX_MATCHES then
        (ms ++ ["... (truncated at " ++ toString MAX_MATCHES ++ " matches)"], true)
      else grepScanLines search rel rest ms
    else grepScanLines search rel rest ms

/-- `enumerate(text.splitlines(), start=1)`. -/
def enumLines (text : String) : List (Nat × String) :=
  (splitlines text).enum.map (fun p => (p.1 + 1, p.2))

/-- The per-file loop: count every file searched, skip unreadable files,
scan lines, stop early on truncation.  Returns (matches, files_searched,
truncated). -/
def grepScanFiles (fs : FSModel) (search : String → Bool) (base : RawPath)
    (abs : Bool) : List FsEntry → List String → Nat → List String × Nat × Bool
  | [], ms, n => (ms, n, false)
  | e :: rest, ms, n =>
    let n := n + 1
    match fs.read_text ⟨abs, e.parts⟩ with
    | .error _ => grepScanFiles fs search base abs rest ms n
    | .ok text =>
      let rel := relStr base e.parts
      let (ms, trunc) := grepScanLines search rel (enumLines text) ms
      if trunc then (ms, n, true) else grepScanFiles fs search base abs rest ms n

/-- `_format_result`. -/
def grepFormatResult (pattern : String) (matches' : List String)
    (files_searched : Nat) : String :=
  if matches' = [] then
    "No matches found for pattern '" ++ pattern ++ "' ("
      ++ toString files_searched ++ " files searched)."
  else
    "Found " ++ toString matches'.length ++ " match(es) for '" ++ pattern
      ++ "' (" ++ toString files_searched ++ " files searched):\n"
      ++ String.intercalate "\n" matches'

/-- `GrepSearchTool.execute`; `recompile` is `re.compile(pattern,
re.IGNORECASE)` (an `re.error` message, or the compiled regex's `search`
as a line predicate). -/
def grepSearchExecute (fs : FSModel)
    (recompile : String → Except String (String → Bool))
    (args : GrepSearchArgs) (work_dir : RawPath) : String :=
  let pattern := args.pattern
  if pattern = "" then "Error: 'pattern' argument is required."
  else
    match recompile pattern with
    | .error exc => "Error: invalid regex pattern '" ++ pattern ++ "': " ++ exc
    | .ok search =>
      match toolResolvePath fs args.path work_dir with
      | none => "Error: path '" ++ args.path ++ "' is outside the working directory."
      | some resolved =>
        if fs.pexists resolved = false then
          "Error: path '" ++ args.path ++ "' does not exist."
        else
          let files := walkFiles fs resolved args.include'
          let (matches', files_searched, _) :=
            grepScanFiles fs search (fs.resolve work_dir) resolved.absolute files [] 0
          grepFormatResult pattern matches' files_searched

/- ## glob_search (`services/tools/glob_search.py`) -/

/-- `MAX_RESULTS = 500`. -/
def MAX_RESULTS : Nat := 500

/-- Arguments of `glob_search`. -/
structure GlobSearchArgs where
  pattern : String := ""
  path : String := "."
deriving DecidableEq, Repr

/-- The filter/cap loop of `GlobSearchTool.execute` over the sorted glob
matches: skip denylisted components and non-files; at `MAX_RESULTS`
append the truncation marker and stop. -/
def globCollect (base : RawPath) : List FsEntry → List String → List String
  | [], rs => rs
  | e :: rest, rs =>
    if e.parts.any (fun part => SKIP_DIRS.contains part) then globCollect base rest rs
    else if e.is_file = false then globCollect base rest rs
    else
      let rs := rs ++ [relStr base e.parts]
      if rs.length ≥ MAX_RESULTS then
        rs ++ ["... (truncated at " ++ toString MAX_RESULTS ++ " results)"]
      else globCollect base rest rs

/-- `GlobSearchTool.execute`. -/
def globSearchExecute (fs : FSModel) (args : GlobSearchArgs)
    (work_dir : RawPath) : String :=
  let pattern := args.pattern
  if pattern = "" then "Error: 'pattern' argument is required."
  else
    match toolResolvePath fs args.path work_dir with
    | none => "Error: path '" ++ args.path ++ "' is outside the working directory."
    | some resolved =>
      if fs.pexists resolved = false then
        "Error: path '" ++ args.path ++ "' does not exist."
      else if fs.is_dir resolved = false then
        "Error: '" ++ args.path ++ "' is not a directory."
      else
        match fs.glob resolved pattern with
        | .error exc => "Error: invalid glob pattern '" ++ pattern ++ "': " ++ exc
        | .ok raw_matches =>
          let results := globCollect (fs.resolve work_dir) (sortEntries raw_matches) []
          if results = [] then
            "No files found matching pattern '" ++ pattern ++ "'."
          else
            "Found " ++ toString results.length ++ " file(s) matching '"
              ++ pattern ++ "':\n" ++ String.intercalate "\n" results

/-- `done`-event recognizer. -/
def AgentEvent.isDoneEv : AgentEvent → Bool
  | .done _ => true
  | _ => false

/-- `error`-event recognizer. -/
def AgentEvent.isErrorEv : AgentEvent → Bool
  | .error _ => true
  | _ => false

/-- `text-delta`-event recognizer. -/
def AgentEvent.isTextDeltaEv : AgentEvent → Bool
  | .textDelta _ => true
  | _ => false

/-- The fixed iteration-cap error message. -/
def capMessage (max_iterations : Nat) : String :=
  "Agent loop exceeded maximum iterations (" ++ toString max_iterations ++ ")."

/-- Kept entries of the glob filter (not in a skip dir, and a file). -/
def globKeep (e : FsEntry) : Bool :=
  !(e.parts.any (fun part => SKIP_DIRS.contains part)) && e.is_file

/-- Number of matching lines of one file's text. -/
def fileMatchCount (search : String → Bool) (text : String) : Nat :=
  ((enumLines text).filter (fun p => search p.2)).length

/-- Total matching lines over a file list (unreadable files contribute 0). -/
def totalMatchCount (fs : FSModel) (search : String → Bool) (abs : Bool) :
    List FsEntry → Nat
  | [] => 0
  | e :: rest =>
    (match fs.read_text ⟨abs, e.parts⟩ with
     | .error _ => 0
     | .ok text => fileMatchCount search text) + totalMatchCount fs search abs rest

/- # Theorems -/

theorem startswith_prefix (p t : String) : startswith (p ++ t) p = true := by
  unfold startswith
  rw [String.data_append, List.isPrefixOf_iff_prefix]
  exact List.prefix_append _ _

theorem startswith_append_left (a b p : String) (h : p.data.length ≤ a.data.length) :
    startswith (a ++ b) p = startswith a p := by
  unfold startswith
  rw [String.data_append, Bool.eq_iff_iff]
  simp only [List.isPrefixOf_iff_prefix]
  constructor
  · intro hp
    rw [List.prefix_iff_eq_take] at hp
    rw [List.take_append_of_le_length h] at hp
    rw [List.prefix_iff_eq_take]
    exact hp
  · intro hp
    exact hp.trans (List.prefix_append _ _)

/-- **C1**: `put_confirm` succeeds — enqueues the approved boolean and clears
the pending id — if and only if a confirmation queue exists for the session
and the pending id exists and equals the given tool-call id; in every other
case (no queue, no pending id, mismatched id, or replay after a successful
resolution) it returns `False` and leaves all registry state unchanged; a
replay directly after a success is itself rejected without side effect. -/
theorem C1_put_confirm_spec (r : SessionStreamRegistry) (sid tid : String)
    (approved : Bool) :
    ((r.put_confirm sid tid approved).1 = true ↔
      (∃ q, r.confirm_queues sid = some q) ∧ r.pending_confirm sid = some tid) ∧
    ((r.put_confirm sid tid approved).1 = false →
      (r.put_confirm sid tid approved).2 = r) ∧
    ((r.put_confirm sid tid approved).1 = true →
      ∃ q, r.confirm_queues sid = some q ∧
        (r.put_confirm sid tid approved).2.confirm_queues sid = some (q ++ [approved]) ∧
        (r.put_confirm sid tid approved).2.pending_confirm sid = none ∧
        ((r.put_confirm sid tid approved).2.put_confirm sid tid approved).1 = false ∧
        ((r.put_confirm sid tid approved).2.put_confirm sid tid approved).2 =
          (r.put_confirm sid tid approved).2) := by
  cases h : r.confirm_queues sid with
  | none =>
    refine ⟨?_, ?_, ?_⟩ <;> simp [SessionStreamRegistry.put_confirm, h]
  | some q =>
    by_cases hp : r.pending_confirm sid = some tid
    · refine ⟨?_, ?_, ?_⟩ <;>
        simp [SessionStreamRegistry.put_confirm, h, hp, mapSet, mapErase]
    · refine ⟨?_, ?_, ?_⟩ <;>
        simp [SessionStreamRegistry.put_confirm, h, hp]

/-- Witness for C1: on a registry with a confirmation queue for `"s"` and
pending id `"c"`, resolving `"c"` succeeds, while resolving `"x"` fails and
leaves the registry unchanged. -/
theorem C1_put_confirm_spec_witness :
    (((SessionStreamRegistry.init.register_confirm "s").set_pending_confirm
        "s" "c").put_confirm "s" "c" true).1 = true ∧
    (((SessionStreamRegistry.init.register_confirm "s").set_pending_confirm
        "s" "c").put_confirm "s" "x" true).1 = false ∧
    (((SessionStreamRegistry.init.register_confirm "s").set_pending_confirm
        "s" "c").put_confirm "s" "x" true).2 =
      ((SessionStreamRegistry.init.register_confirm "s").set_pending_confirm
        "s" "c") := by
  refine ⟨?_, by decide, ?_⟩
  · exact (C1_put_confirm_spec _ "s" "c" true).1.mpr ⟨⟨[], by decide⟩, by decide⟩
  · exact (C1_put_confirm_spec _ "s" "x" true).2.1 (by decide)

/-- **C7** (teardown modelled from the spec, §5): on every exit of a
session's stream handler — normal return, error, or cancellation — both the
session's message-queue registration and its confirmation-queue
registration, including any pending-confirmation id, are released from the
stream registry. -/
theorem C7_stream_teardown_releases (r : SessionStreamRegistry) (sid : String)
    (e : StreamExit) :
    (streamTeardown r sid e).queues sid = none ∧
    (streamTeardown r sid e).confirm_queues sid = none ∧
    (streamTeardown r sid e).pending_confirm sid = none := by
  refine ⟨?_, ?_, ?_⟩ <;>
    simp [streamTeardown, SessionStreamRegistry.unregister,
      SessionStreamRegistry.unregister_confirm, mapErase]

/-- **C3**: for each sandboxed built-in tool (`read_file`, `list_directory`,
`grep_search`, `glob_search`), when the canonicalized (symlink-following)
resolution of the path argument joined to the sandbox root does not lie
within the canonicalized sandbox root, `execute` returns exactly the
"outside the working directory" error marker text — for every filesystem
model, so the target is neither read nor listed. -/
theorem C3_sandbox_containment (fs : FSModel) (work_dir : RawPath) (raw : String)
    (sl el : Option Int) (pat : String) (inc : Option String)
    (recompile : String → Except String (String → Bool)) (search : String → Bool)
    (hraw : raw ≠ "") (hpat : pat ≠ "") (hre : recompile pat = .ok search)
    (hout : relativeToOk (fs.resolve (joinPath work_dir (parsePath raw)))
      (fs.resolve work_dir) = false) :
    readFileExecute fs ⟨raw, sl, el⟩ work_dir =
      "Error: path '" ++ raw ++ "' is outside the working directory." ∧
    listDirectoryExecute fs ⟨raw⟩ work_dir =
      "Error: path '" ++ raw ++ "' is outside the working directory." ∧
    grepSearchExecute fs recompile ⟨pat, raw, inc⟩ work_dir =
      "Error: path '" ++ raw ++ "' is outside the working directory." ∧
    globSearchExecute fs ⟨pat, raw⟩ work_dir =
      "Error: path '" ++ raw ++ "' is outside the working directory." := by
  have hres : toolResolvePath fs raw work_dir = none := by
    simp [toolResolvePath, hout]
  refine ⟨?_, ?_, ?_, ?_⟩ <;>
    simp [readFileExecute, listDirectoryExecute, grepSearchExecute,
      globSearchExecute, hres, hraw, hpat, hre]

/-- Witness for C3: in a model where `wd/link` is a symlink canonicalizing
to `/etc/passwd` (outside the sandbox root `/wd`), all four sandboxed tools
reject the path argument `link` with the containment error. -/
theorem C3_sandbox_containment_witness :
    (readFileExecute
      { resolve := fun p =>
          if p = ⟨true, ["wd", "link"]⟩ then ⟨true, ["etc", "passwd"]⟩ else p
        pexists := fun _ => true
        is_file := fun _ => true
        is_dir := fun _ => true
        st_size := fun _ => 0
        read_text := fun _ => .ok "secret"
        iterdir := fun _ => .ok []
        rglob_all := fun _ => []
        glob := fun _ _ => .ok []
        match_glob := fun _ _ => true }
      ⟨"link", none, none⟩ ⟨true, ["wd"]⟩ =
        "Error: path '" ++ "link" ++ "' is outside the working directory.") ∧
    (globSearchExecute
      { resolve := fun p =>
          if p = ⟨true, ["wd", "link"]⟩ then ⟨true, ["etc", "passwd"]⟩ else p
        pexists := fun _ => true
        is_file := fun _ => true
        is_dir := fun _ => true
        st_size := fun _ => 0
        read_text := fun _ => .ok "secret"
        iterdir := fun _ => .ok []
        rglob_all := fun _ => []
        glob := fun _ _ => .ok []
        match_glob := fun _ _ => true }
      ⟨"*", "link"⟩ ⟨true, ["wd"]⟩ =
        "Error: path '" ++ "link" ++ "' is outside the working directory.") := by
  refine ⟨?_, ?_⟩
  · exact (C3_sandbox_containment _ _ "link" none none "*" none
      (fun _ => .ok (fun _ => false)) (fun _ => false)
      (by decide) (by decide) rfl (by decide)).1
  · exact (C3_sandbox_containment _ _ "link" none none "*" none
      (fun _ => .ok (fun _ => false)) (fun _ => false)
      (by decide) (by decide) rfl (by decide)).2.2.2

theorem renderFileText_prefix (rp text : String) (s e : Option Int) :
    startswith (renderFileText rp text s e) "Error:" = true ∨
    startswith (renderFileText rp text s e) "Error" = false := by
  unfold renderFileText
  dsimp only
  split
  · left
    simp only [String.append_assoc]
    rw [startswith_append_left _ _ _ (by decide)]
    decide
  · right
    simp only [String.append_assoc]
    rw [startswith_append_left _ _ _ (by decide)]
    decide

theorem grepFormatResult_prefix (p : String) (ms : List String) (n : Nat) :
    startswith (grepFormatResult p ms n) "Error" = false := by
  unfold grepFormatResult
  split
  · simp only [String.append_assoc]
    rw [startswith_append_left _ _ _ (by decide)]
    decide
  · simp only [String.append_assoc]
    rw [startswith_append_left _ _ _ (by decide)]
    decide

/-- Counterexample to **C4** as stated: on an existing, readable-size file
whose read raises `OSError` (message `boom`), `read_file` reports the
failure as `Error reading 'f.txt': boom`, which does not begin with the
designated marker `Error:`; dispatching that tool call in the agent loop
therefore yields a `tool-result` with `is_error = false` for a
tool-reported failure. -/
theorem C4_counterexample :
    readFileExecute
      { resolve := fun p => p
        pexists := fun _ => true
        is_file := fun _ => true
        is_dir := fun _ => true
        st_size := fun _ => 10
        read_text := fun _ => .error "boom"
        iterdir := fun _ => .ok []
        rglob_all := fun _ => []
        glob := fun _ _ => .ok []
        match_glob := fun _ _ => true }
      ⟨"f.txt", none, none⟩ ⟨true, ["wd"]⟩ = "Error reading 'f.txt': boom" ∧
    startswith "Error reading 'f.txt': boom" "Error:" = false ∧
    (dispatchToolCall (J := Unit)
      { provider := fun _ => ⟨[], none⟩
        model := "m"
        max_iterations := 25
        is_disconnected := none
        request_confirmation := none
        registry_get := fun n =>
          if n = "read_file" then
            some ⟨false, fun _ =>
              readFileExecute
                { resolve := fun p => p
                  pexists := fun _ => true
                  is_file := fun _ => true
                  is_dir := fun _ => true
                  st_size := fun _ => 10
                  read_text := fun _ => .error "boom"
                  iterdir := fun _ => .ok []
                  rglob_all := fun _ => []
                  glob := fun _ _ => .ok []
                  match_glob := fun _ _ => true }
                ⟨"f.txt", none, none⟩ ⟨true, ["wd"]⟩⟩
          else none
        json_loads := fun _ => some ()
        json_empty := () }
      ⟨[], [], [], 0⟩ ⟨"1", "read_file", "\x7b\x7d"⟩).events =
      [.toolCall "1" "read_file" "\x7b\x7d",
       .toolResult "1" "read_file" "Error reading 'f.txt': boom" false] := by
  refine ⟨by decide, by decide, by decide⟩

/-- **C4 (amended)**: every result text of a built-in tool either begins
with the designated marker `Error:` (from which the loop derives
`is_error = true`), begins with the `Error reading '` / `Error listing '`
prefix of the OS-level read/list exception paths (which the loop's
`startswith("Error:")` convention does **not** flag as an error), or does
not begin with `Error` at all; `execute` never raises (it is total by
construction). -/
theorem C4_amended_error_marker (fs : FSModel) (work_dir : RawPath)
    (rfa : ReadFileArgs) (lda : ListDirectoryArgs) (ga : GrepSearchArgs)
    (gla : GlobSearchArgs)
    (recompile : String → Except String (String → Bool)) :
    (startswith (readFileExecute fs rfa work_dir) "Error:" = true ∨
     startswith (readFileExecute fs rfa work_dir) "Error reading '" = true ∨
     startswith (readFileExecute fs rfa work_dir) "Error" = false) ∧
    (startswith (readFileExternalExecute fs rfa) "Error:" = true ∨
     startswith (readFileExternalExecute fs rfa) "Error reading '" = true ∨
     startswith (readFileExternalExecute fs rfa) "Error" = false) ∧
    (startswith (listDirectoryExecute fs lda work_dir) "Error:" = true ∨
     startswith (listDirectoryExecute fs lda work_dir) "Error listing '" = true ∨
     startswith (listDirectoryExecute fs lda work_dir) "Error" = false) ∧
    (startswith (grepSearchExecute fs recompile ga work_dir) "Error:" = true ∨
     startswith (grepSearchExecute fs recompile ga work_dir) "Error" = false) ∧
    (startswith (globSearchExecute fs gla work_dir) "Error:" = true ∨
     startswith (globSearchExecute fs gla work_dir) "Error" = false) := by
  refine ⟨?_, ?_, ?_, ?_, ?_⟩
  · simp only [readFileExecute]
    repeat' split
    all_goals first
      | (left; decide)
      | (left; simp only [String.append_assoc];
         rw [startswith_append_left _ _ _ (by decide)]; decide)
      | (right; left; simp only [String.append_assoc];
         rw [startswith_append_left _ _ _ (by decide)]; decide)
      | (rcases renderFileText_prefix _ _ _ _ with h | h;
         exacts [Or.inl h, Or.inr (Or.inr h)])
  · simp only [readFileExternalExecute]
    repeat' split
    all_goals first
      | (left; decide)
      | (left; simp only [String.append_assoc];
         rw [startswith_append_left _ _ _ (by decide)]; decide)
      | (right; left; simp only [String.append_assoc];
         rw [startswith_append_left _ _ _ (by decide)]; decide)
      | (rcases renderFileText_prefix _ _ _ _ with h | h;
         exacts [Or.inl h, Or.inr (Or.inr h)])
  · simp only [listDirectoryExecute]
    repeat' split
    all_goals first
      | (left; decide)
      | (left; simp only [String.append_assoc];
         rw [startswith_append_left _ _ _ (by decide)]; decide)
      | (right; left; simp only [String.append_assoc];
         rw [startswith_append_left _ _ _ (by decide)]; decide)
      | (right; right; simp only [String.append_assoc];
         rw [startswith_append_left _ _ _ (by decide)]; decide)
  · simp only [grepSearchExecute]
    repeat' split
    all_goals first
      | (left; decide)
      | (left; simp only [String.append_assoc];
         rw [startswith_append_left _ _ _ (by decide)]; decide)
      | (right; exact grepFormatResult_prefix _ _ _)
  · simp only [globSearchExecute]
    repeat' split
    all_goals first
      | (left; decide)
      | (left; simp only [String.append_assoc];
         rw [startswith_append_left _ _ _ (by decide)]; decide)
      | (right; simp only [String.append_assoc];
         rw [startswith_append_left _ _ _ (by decide)]; decide)

/-- **C8**: for every existing, readable file within the size ceiling,
`read_file` clamps `start_line` to at least 1 and `end_line` to at most the
line count, errors exactly when the clamped start exceeds the clamped end —
whatever the unclamped inputs were — and otherwise returns the selected
lines numbered from the clamped start. -/
theorem C8_read_file_clamp (fs : FSModel) (work_dir : RawPath) (raw : String)
    (sl el : Option Int) (resolved : RawPath) (text : String)
    (hraw : raw ≠ "")
    (hres : toolResolvePath fs raw work_dir = some resolved)
    (hex : fs.pexists resolved = true)
    (hf : fs.is_file resolved = true)
    (hsz : fs.st_size resolved ≤ MAX_FILE_SIZE)
    (hrd : fs.read_text resolved = .ok text) :
    (startswith (readFileExecute fs ⟨raw, sl, el⟩ work_dir) "Error:" = true ↔
      max 1 (sl.getD 1) >
        min ((splitlines text).length : Int) (el.getD ((splitlines text).length : Int))) ∧
    (max 1 (sl.getD 1) ≤
        min ((splitlines text).length : Int) (el.getD ((splitlines text).length : Int)) →
      readFileExecute fs ⟨raw, sl, el⟩ work_dir =
        "File: " ++ raw ++ " (lines "
          ++ toString (max 1 (sl.getD 1)) ++ "-"
          ++ toString (min ((splitlines text).length : Int)
              (el.getD ((splitlines text).length : Int)))
          ++ " of " ++ toString ((splitlines text).length : Int) ++ ")\n"
          ++ String.intercalate "\n"
            ((((splitlines text).drop (max 1 (sl.getD 1) - 1).toNat).take
                (min ((splitlines text).length : Int)
                    (el.getD ((splitlines text).length : Int))
                  - (max 1 (sl.getD 1) - 1)).toNat).enum.map
              (fun p =>
                padNum (max 1 (sl.getD 1) + p.1)
                  (toString (min ((splitlines text).length : Int)
                    (el.getD ((splitlines text).length : Int)))).length
                ++ " | " ++ p.2))) := by
  have hstep : readFileExecute fs ⟨raw, sl, el⟩ work_dir =
      renderFileText raw text sl el := by
    simp only [readFileExecute, hraw, hres, hex, hf, hrd]
    simp [Nat.not_lt_of_le hsz]
  rw [hstep]
  unfold renderFileText
  dsimp only
  constructor
  · split
    · rename_i hgt
      refine iff_of_true ?_ hgt
      simp only [String.append_assoc]
      rw [startswith_append_left _ _ _ (by decide)]
      decide
    · rename_i hgt
      refine iff_of_false ?_ hgt
      simp only [String.append_assoc]
      rw [startswith_append_left _ _ _ (by decide)]
      decide
  · intro hle
    rw [if_neg (not_lt.mpr hle)]

/-- Witness for C8 on a 3-line file with unclamped range 5–10 (so
`start ≤ end` before clamping): after clamping to `[1,3]` the range is
`5 > 3`, and `read_file` errors. -/
theorem C8_read_file_clamp_witness :
    startswith
      (readFileExecute
        { resolve := fun p => p
          pexists := fun _ => true
          is_file := fun _ => true
          is_dir := fun _ => true
          st_size := fun _ => 6
          read_text := fun _ => .ok "a\nb\nc"
          iterdir := fun _ => .ok []
          rglob_all := fun _ => []
          glob := fun _ _ => .ok []
          match_glob := fun _ _ => true }
        ⟨"f", some 5, some 10⟩ ⟨true, ["wd"]⟩) "Error:" = true := by
  exact (C8_read_file_clamp _ _ "f" (some 5) (some 10) ⟨true, ["wd", "f"]⟩
    "a\nb\nc" (by decide) (by decide) rfl rfl (by decide) rfl).1.mpr (by decide)

theorem processChunk_events_all (p : AgentEvent → Bool)
    (hp : ∀ s, p (.textDelta s) = true) (acc : ConsumeAcc) (ch : Chunk) :
    (processChunk acc ch).2.all p = true := by
  unfold processChunk
  cases ch.choices.head? with
  | none => simp
  | some choice =>
    dsimp only
    split
    · simp [hp]
    · simp

theorem consume_events_all (p : AgentEvent → Bool)
    (hp : ∀ s, p (.textDelta s) = true) (isDisc : Option (Nat → Bool)) :
    ∀ (chunks : List Chunk) (c : Nat) (acc : ConsumeAcc),
      (consumeChunks isDisc chunks c acc).events.all p = true := by
  intro chunks
  induction chunks with
  | nil => intro c acc; simp [consumeChunks]
  | cons ch rest ih =>
    intro c acc
    unfold consumeChunks
    dsimp only
    split
    · simp
    · rcases hpc : processChunk acc ch with ⟨acc', evs⟩
      dsimp only
      rw [List.all_append]
      have h1 := processChunk_events_all p hp acc ch
      rw [hpc] at h1
      rw [h1, ih (c + 1) acc']
      rfl

theorem consume_none_exhausted :
    ∀ (chunks : List Chunk) (c : Nat) (acc : ConsumeAcc),
      (consumeChunks none chunks c acc).kind = .exhausted := by
  intro chunks
  induction chunks with
  | nil => intro c acc; rfl
  | cons ch rest ih =>
    intro c acc
    unfold consumeChunks
    rcases hpc : processChunk acc ch with ⟨acc', evs⟩
    simp only [hpc]
    exact ih (c + 1) acc'

theorem consume_none_counter_irrelevant :
    ∀ (chunks : List Chunk) (c₁ c₂ : Nat) (acc : ConsumeAcc),
      (consumeChunks none chunks c₁ acc).events =
        (consumeChunks none chunks c₂ acc).events ∧
      (consumeChunks none chunks c₁ acc).acc =
        (consumeChunks none chunks c₂ acc).acc ∧
      (consumeChunks none chunks c₁ acc).kind =
        (consumeChunks none chunks c₂ acc).kind := by
  intro chunks
  induction chunks with
  | nil => intro c₁ c₂ acc; exact ⟨rfl, rfl, rfl⟩
  | cons ch rest ih =>
    intro c₁ c₂ acc
    unfold consumeChunks
    rcases hpc : processChunk acc ch with ⟨acc', evs⟩
    simp only [hpc]
    rcases ih (c₁ + 1) (c₂ + 1) acc' with ⟨h1, h2, h3⟩
    exact ⟨by simp [h1], by simp [h2], by simp [h3]⟩

theorem emitToolResult_eq (st : LoopSt) (tc : StreamedToolCall)
    (r : String) (b : Bool) :
    emitToolResult st tc r b =
      ⟨st.openai_messages ++ [.tool r tc.id],
       st.events ++ [.toolResult tc.id tc.name r b],
       st.persisted ++ [⟨"tool", r, none, some tc.id⟩],
       st.counter⟩ := rfl

/-- Shape of one tool-call dispatch: it only appends — events that are
neither `done` nor `error`, persisted messages that are all tool-role —
and leaves the poll counter alone. -/
theorem dispatchToolCall_shape {J : Type} (cfg : LoopCfg J) (st : LoopSt)
    (tc : StreamedToolCall) :
    ∃ M D P,
      dispatchToolCall cfg st tc =
        ⟨st.openai_messages ++ M, st.events ++ D, st.persisted ++ P, st.counter⟩ ∧
      D.all (fun e => !e.isDoneEv && !e.isErrorEv) = true ∧
      P.all (fun m => m.role = "tool") = true := by
  unfold dispatchToolCall
  cases hreg : cfg.registry_get tc.name with
  | none =>
    dsimp only
    refine ⟨[.tool ("Error: unknown tool '" ++ tc.name ++ "'.") tc.id],
      [.toolCall tc.id tc.name tc.arguments,
       .toolResult tc.id tc.name ("Error: unknown tool '" ++ tc.name ++ "'.") true],
      [⟨"tool", "Error: unknown tool '" ++ tc.name ++ "'.", none, some tc.id⟩],
      ?_, by simp [AgentEvent.isDoneEv, AgentEvent.isErrorEv], by simp⟩
    rw [emitToolResult_eq]
    simp
  | some tool =>
    dsimp only
    by_cases hrc : tool.requires_confirmation
    · rw [if_pos hrc]
      by_cases happ : (match cfg.request_confirmation with
        | none => false
        | some f => f tc.id tc.name tc.arguments) = false
      · rw [if_pos happ]
        dsimp only
        refine ⟨[.tool "Error: user declined to run this tool." tc.id],
          [.toolCall tc.id tc.name tc.arguments,
           .toolConfirm tc.id tc.name tc.arguments,
           .toolResult tc.id tc.name "Error: user declined to run this tool." true],
          [⟨"tool", "Error: user declined to run this tool.", none, some tc.id⟩],
          ?_, by simp [AgentEvent.isDoneEv, AgentEvent.isErrorEv], by simp⟩
        rw [emitToolResult_eq]
        simp
      · rw [if_neg happ]
        dsimp only
        rcases hp : (if tc.arguments = "" then
            (tool.execute cfg.json_empty,
             startswith (tool.execute cfg.json_empty) "Error:")
          else
            match cfg.json_loads tc.arguments with
            | none =>
              ("Error: failed to parse arguments for tool '" ++ tc.name ++ "': "
                ++ tc.arguments, true)
            | some args =>
              (tool.execute args, startswith (tool.execute args) "Error:"))
          with ⟨r, b⟩
        dsimp only
        rw [emitToolResult_eq]
        refine ⟨[.tool r tc.id],
          [.toolCall tc.id tc.name tc.arguments,
           .toolConfirm tc.id tc.name tc.arguments,
           .toolResult tc.id tc.name r b],
          [⟨"tool", r, none, some tc.id⟩],
          by simp, by simp [AgentEvent.isDoneEv, AgentEvent.isErrorEv], by simp⟩
    · rw [if_neg hrc]
      dsimp only
      rcases hp : (if tc.arguments = "" then
          (tool.execute cfg.json_empty,
           startswith (tool.execute cfg.json_empty) "Error:")
        else
          match cfg.json_loads tc.arguments with
          | none =>
            ("Error: failed to parse arguments for tool '" ++ tc.name ++ "': "
              ++ tc.arguments, true)
          | some args =>
            (tool.execute args, startswith (tool.execute args) "Error:"))
        with ⟨r, b⟩
      dsimp only
      rw [emitToolResult_eq]
      refine ⟨[.tool r tc.id],
        [.toolCall tc.id tc.name tc.arguments,
         .toolResult tc.id tc.name r b],
        [⟨"tool", r, none, some tc.id⟩],
        by simp, by simp [AgentEvent.isDoneEv, AgentEvent.isErrorEv], by simp⟩

/-- Shape of a whole tool-dispatch pass (`for tc in tool_calls`). -/
theorem foldl_dispatch_shape {J : Type} (cfg : LoopCfg J) :
    ∀ (tcs : List StreamedToolCall) (st : LoopSt),
      ∃ M D P,
        tcs.foldl (dispatchToolCall cfg) st =
          ⟨st.openai_messages ++ M, st.events ++ D, st.persisted ++ P, st.counter⟩ ∧
        D.all (fun e => !e.isDoneEv && !e.isErrorEv) = true ∧
        P.all (fun m => m.role = "tool") = true := by
  intro tcs
  induction tcs with
  | nil =>
    intro st
    exact ⟨[], [], [], by simp, rfl, rfl⟩
  | cons tc rest ih =>
    intro st
    rcases dispatchToolCall_shape cfg st tc with ⟨M₁, D₁, P₁, h₁, hD₁, hP₁⟩
    rcases ih ⟨st.openai_messages ++ M₁, st.events ++ D₁, st.persisted ++ P₁,
      st.counter⟩ with ⟨M₂, D₂, P₂, h₂, hD₂, hP₂⟩
    refine ⟨M₁ ++ M₂, D₁ ++ D₂, P₁ ++ P₂, ?_, ?_, ?_⟩
    · rw [List.foldl_cons, h₁, h₂]
      simp [List.append_assoc]
    · rw [List.all_append, hD₁, hD₂]; rfl
    · rw [List.all_append, hP₁, hP₂]; rfl

theorem countP_zero_of_all {α : Type} (l : List α) (p q : α → Bool)
    (hall : l.all p = true) (hpq : ∀ a, p a = true → q a = false) :
    l.countP q = 0 := by
  rw [List.countP_eq_zero]
  intro a ha
  have := List.all_eq_true.mp hall a ha
  rw [hpq a this]
  simp

/-- **C2**: for a dispatched tool call whose tool is flagged
`requires_confirmation`, a denial (resolver answers `False`, or no resolver
was supplied) makes the loop emit exactly one `tool-confirm` followed by
exactly one `tool-result` with `is_error = true` and the fixed "declined"
text, persist only that tool message, and never invoke `execute` (the
dispatch output is identical for any two `execute` functions); an approval
falls through to the normal parse/execute path, producing the same output
as the unflagged tool except for the inserted `tool-confirm` event. -/
theorem C2_confirmation_denial {J : Type} (cfg : LoopCfg J) (st : LoopSt)
    (tc : StreamedToolCall) (tool : MTool J)
    (hreg : cfg.registry_get tc.name = some tool)
    (hrc : tool.requires_confirmation = true) :
    ((match cfg.request_confirmation with
      | none => false
      | some f => f tc.id tc.name tc.arguments) = false →
      dispatchToolCall cfg st tc =
        ⟨st.openai_messages ++ [.tool "Error: user declined to run this tool." tc.id],
         st.events ++
           [.toolCall tc.id tc.name tc.arguments,
            .toolConfirm tc.id tc.name tc.arguments,
            .toolResult tc.id tc.name "Error: user declined to run this tool." true],
         st.persisted ++
           [⟨"tool", "Error: user declined to run this tool.", none, some tc.id⟩],
         st.counter⟩) ∧
    (∀ ex₁ ex₂ : J → String,
      (match cfg.request_confirmation with
       | none => false
       | some f => f tc.id tc.name tc.arguments) = false →
      dispatchToolCall
        { cfg with registry_get := fun n =>
            if n = tc.name then some ⟨true, ex₁⟩ else cfg.registry_get n } st tc =
      dispatchToolCall
        { cfg with registry_get := fun n =>
            if n = tc.name then some ⟨true, ex₂⟩ else cfg.registry_get n } st tc) ∧
    (∀ f, cfg.request_confirmation = some f →
      f tc.id tc.name tc.arguments = true →
      dispatchToolCall cfg st tc =
        ⟨(dispatchToolCall
            { cfg with registry_get := fun n =>
                if n = tc.name then some ⟨false, tool.execute⟩
                else cfg.registry_get n } st tc).openai_messages,
         st.events ++
           [.toolCall tc.id tc.name tc.arguments,
            .toolConfirm tc.id tc.name tc.arguments] ++
           ((dispatchToolCall
              { cfg with registry_get := fun n =>
                  if n = tc.name then some ⟨false, tool.execute⟩
                  else cfg.registry_get n } st tc).events.drop
             (st.events.length + 1)),
         (dispatchToolCall
            { cfg with registry_get := fun n =>
                if n = tc.name then some ⟨false, tool.execute⟩
                else cfg.registry_get n } st tc).persisted,
         (dispatchToolCall
            { cfg with registry_get := fun n =>
                if n = tc.name then some ⟨false, tool.execute⟩
                else cfg.registry_get n } st tc).counter⟩) := by
  have key : ∀ (cfg' : LoopCfg J) (tool' : MTool J),
      cfg'.registry_get tc.name = some tool' →
      tool'.requires_confirmation = true →
      (match cfg'.request_confirmation with
       | none => false
       | some f => f tc.id tc.name tc.arguments) = false →
      dispatchToolCall cfg' st tc =
        ⟨st.openai_messages ++ [.tool "Error: user declined to run this tool." tc.id],
         st.events ++
           [.toolCall tc.id tc.name tc.arguments,
            .toolConfirm tc.id tc.name tc.arguments,
            .toolResult tc.id tc.name "Error: user declined to run this tool." true],
         st.persisted ++
           [⟨"tool", "Error: user declined to run this tool.", none, some tc.id⟩],
         st.counter⟩ := by
    intro cfg' tool' hreg' hrc' hden'
    unfold dispatchToolCall
    rw [hreg']
    dsimp only
    rw [if_pos hrc', if_pos hden']
    dsimp only
    rw [emitToolResult_eq]
    simp
  refine ⟨key cfg tool hreg hrc, ?_, ?_⟩
  · intro ex₁ ex₂ hden
    rw [key _ ⟨true, ex₁⟩ (by simp) rfl (by simpa using hden),
        key _ ⟨true, ex₂⟩ (by simp) rfl (by simpa using hden)]
  · intro f hcf happ
    rcases hp : (if tc.arguments = "" then
        (tool.execute cfg.json_empty,
         startswith (tool.execute cfg.json_empty) "Error:")
      else
        match cfg.json_loads tc.arguments with
        | none =>
          ("Error: failed to parse arguments for tool '" ++ tc.name ++ "': "
            ++ tc.arguments, true)
        | some args =>
          (tool.execute args, startswith (tool.execute args) "Error:"))
      with ⟨r, b⟩
    have hF : dispatchToolCall
        { cfg with registry_get := fun n =>
            if n = tc.name then some ⟨false, tool.execute⟩
            else cfg.registry_get n } st tc =
        ⟨st.openai_messages ++ [.tool r tc.id],
         st.events ++
           [.toolCall tc.id tc.name tc.arguments,
            .toolResult tc.id tc.name r b],
         st.persisted ++ [⟨"tool", r, none, some tc.id⟩],
         st.counter⟩ := by
      unfold dispatchToolCall
      dsimp only
      rw [if_pos rfl]
      dsimp only
      rw [if_neg Bool.false_ne_true]
      dsimp only
      rw [hp]
      dsimp only
      rw [emitToolResult_eq]
      simp
    have hL : dispatchToolCall cfg st tc =
        ⟨st.openai_messages ++ [.tool r tc.id],
         st.events ++
           [.toolCall tc.id tc.name tc.arguments,
            .toolConfirm tc.id tc.name tc.arguments,
            .toolResult tc.id tc.name r b],
         st.persisted ++ [⟨"tool", r, none, some tc.id⟩],
         st.counter⟩ := by
      unfold dispatchToolCall
      rw [hreg]
      dsimp only
      rw [if_pos hrc, hcf]
      dsimp only
      rw [if_neg (by simp [happ])]
      dsimp only
      rw [hp]
      dsimp only
      rw [emitToolResult_eq]
      simp
    rw [hL, hF]
    dsimp only
    have hdrop :
        (st.events ++
          [AgentEvent.toolCall tc.id tc.name tc.arguments,
           AgentEvent.toolResult tc.id tc.name r b]).drop
            (st.events.length + 1) =
          [AgentEvent.toolResult tc.id tc.name r b] := by
      rw [show st.events ++
          [AgentEvent.toolCall tc.id tc.name tc.arguments,
           AgentEvent.toolResult tc.id tc.name r b] =
          (st.events ++ [AgentEvent.toolCall tc.id tc.name tc.arguments]) ++
            [AgentEvent.toolResult tc.id tc.name r b] by simp]
      rw [show st.events.length + 1 =
          (st.events ++ [AgentEvent.toolCall tc.id tc.name tc.arguments]).length
        by simp]
      rw [List.drop_left]
    rw [hdrop]
    simp

/-- Witness for C2 at a concrete configuration with no resolver supplied:
dispatching a confirmation-required tool emits `tool-call`,
`tool-confirm`, then the declined `tool-result` with `is_error = true`. -/
theorem C2_confirmation_denial_witness :
    dispatchToolCall (J := Unit)
      { provider := fun _ => ⟨[], none⟩
        model := "m"
        max_iterations := 25
        is_disconnected := none
        request_confirmation := none
        registry_get := fun n =>
          if n = "read_file_external" then some ⟨true, fun _ => "ok"⟩ else none
        json_loads := fun _ => some ()
        json_empty := () }
      ⟨[], [], [], 0⟩ ⟨"c1", "read_file_external", "\x7b\x7d"⟩ =
      ⟨[.tool "Error: user declined to run this tool." "c1"],
       [.toolCall "c1" "read_file_external" "\x7b\x7d",
        .toolConfirm "c1" "read_file_external" "\x7b\x7d",
        .toolResult "c1" "read_file_external"
          "Error: user declined to run this tool." true],
       [⟨"tool", "Error: user declined to run this tool.", none, some "c1"⟩],
       0⟩ := by
  have h := (C2_confirmation_denial (J := Unit)
    { provider := fun _ => ⟨[], none⟩
      model := "m"
      max_iterations := 25
      is_disconnected := none
      request_confirmation := none
      registry_get := fun n =>
        if n = "read_file_external" then some ⟨true, fun _ => "ok"⟩ else none
      json_loads := fun _ => some ()
      json_empty := () }
    ⟨[], [], [], 0⟩ ⟨"c1", "read_file_external", "\x7b\x7d"⟩
    ⟨true, fun _ => "ok"⟩ (by simp) rfl).1 rfl
  simpa using h

/-- **C6**: when the provider call fails during fragment consumption
(exception after the delivered chunks), the iteration persists the
accumulated assistant text as an assistant turn exactly when it is
non-empty, emits exactly one `error` event carrying the failure's message
after the already-emitted text deltas, and terminates (the run equals that
single record — no further iterations run); the iteration-cap exit, by
contrast, persists nothing. -/
theorem C6_provider_failure {J : Type} (cfg : LoopCfg J) (fuel iter : Nat)
    (st : LoopSt) (msg : String)
    (hexc : (cfg.provider iter).exc = some msg)
    (hkind : (consumeChunks cfg.is_disconnected (cfg.provider iter).chunks
      st.counter ⟨cfg.model, "", [], none⟩).kind = .exhausted) :
    runIterations cfg (fuel + 1) iter st =
      ⟨st.openai_messages,
       (st.events ++
         (consumeChunks cfg.is_disconnected (cfg.provider iter).chunks
           st.counter ⟨cfg.model, "", [], none⟩).events) ++ [.error msg],
       st.persisted ++
         (if (consumeChunks cfg.is_disconnected (cfg.provider iter).chunks
              st.counter ⟨cfg.model, "", [], none⟩).acc.accumulated_text ≠ "" then
            [⟨"assistant",
              (consumeChunks cfg.is_disconnected (cfg.provider iter).chunks
                st.counter ⟨cfg.model, "", [], none⟩).acc.accumulated_text,
              none, none⟩]
          else []),
       (consumeChunks cfg.is_disconnected (cfg.provider iter).chunks
         st.counter ⟨cfg.model, "", [], none⟩).counter⟩ ∧
    (consumeChunks cfg.is_disconnected (cfg.provider iter).chunks
      st.counter ⟨cfg.model, "", [], none⟩).events.all
        AgentEvent.isTextDeltaEv = true ∧
    (runIterations cfg 0 iter st).persisted = st.persisted := by
  refine ⟨?_, consume_events_all _ (fun s => rfl) _ _ _ _, by simp [runIterations]⟩
  unfold runIterations
  dsimp only
  rw [hkind]
  dsimp only
  rw [hexc]
  dsimp only
  by_cases hne : (consumeChunks cfg.is_disconnected (cfg.provider iter).chunks
      st.counter ⟨cfg.model, "", [], none⟩).acc.accumulated_text ≠ ""
  · rw [if_pos hne, if_pos hne]
  · rw [if_neg hne, if_neg hne]
    simp

theorem consume_cons_some (d : Nat → Bool) (ch : Chunk)
    (rest : List Chunk) (c : Nat) (acc : ConsumeAcc) :
    consumeChunks (some d) (ch :: rest) c acc =
      if d c = true then ⟨.disconnected, acc, [], c⟩
      else
        { consumeChunks (some d) rest (c + 1) (processChunk acc ch).1 with
          events := (processChunk acc ch).2 ++
            (consumeChunks (some d) rest (c + 1) (processChunk acc ch).1).events } := by
  by_cases h : d c = true
  · simp only [consumeChunks, h, if_pos]
  · rcases hpc : processChunk acc ch with ⟨a, e⟩
    simp only [consumeChunks, h, if_neg, hpc]

theorem consume_cons_none (ch : Chunk)
    (rest : List Chunk) (c : Nat) (acc : ConsumeAcc) :
    consumeChunks none (ch :: rest) c acc =
      { consumeChunks none rest (c + 1) (processChunk acc ch).1 with
        events := (processChunk acc ch).2 ++
          (consumeChunks none rest (c + 1) (processChunk acc ch).1).events } := by
  rcases hpc : processChunk acc ch with ⟨a, e⟩
  simp only [consumeChunks, hpc]
  rw [if_neg (by decide)]

theorem consume_disconnected_boundary (d : Nat → Bool) :
    ∀ (chunks : List Chunk) (c : Nat) (acc : ConsumeAcc),
      (consumeChunks (some d) chunks c acc).kind = .disconnected →
      ∃ k, k < chunks.length ∧ d (c + k) = true ∧
        (∀ j, j < k → d (c + j) = false) ∧
        (consumeChunks (some d) chunks c acc).events =
          (consumeChunks none (List.take k chunks) 0 acc).events := by
  intro chunks
  induction chunks with
  | nil =>
    intro c acc h
    simp [consumeChunks] at h
  | cons ch rest ih =>
    intro c acc h
    rw [consume_cons_some] at h ⊢
    by_cases hdc : d c = true
    · rw [if_pos hdc] at h ⊢
      refine ⟨0, by simp, hdc,
        fun j hj => absurd hj (by omega), ?_⟩
      simp [consumeChunks]
    · rw [if_neg hdc] at h ⊢
      have h' : (consumeChunks (some d) rest (c + 1)
          (processChunk acc ch).1).kind = .disconnected := by
        simpa using h
      rcases ih (c + 1) (processChunk acc ch).1 h' with ⟨k, hk1, hk2, hk3, hk4⟩
      refine ⟨k + 1, by simp only [List.length_cons]; omega, ?_, ?_, ?_⟩
      · rw [show c + (k + 1) = (c + 1) + k by omega]
        exact hk2
      · intro j hj
        cases j with
        | zero => simpa using hdc
        | succ j' =>
          rw [show c + (j' + 1) = (c + 1) + j' by omega]
          exact hk3 j' (by omega)
      · dsimp only
        rw [hk4, List.take_succ_cons, consume_cons_none]
        dsimp only
        exact congrArg ((processChunk acc ch).2 ++ ·)
          ((consume_none_counter_irrelevant (List.take k rest) 0 1
            (processChunk acc ch).1).1)

/-- **C9**: whenever the disconnect predicate fires at a fragment boundary,
the loop terminates immediately: the run equals the pre-disconnect state —
only the text-delta events of the fragments processed strictly before the
firing poll are emitted, and no error, done, tool or further text event
follows; nothing is persisted by the abandoned iteration. -/
theorem C9_disconnect_silent {J : Type} (cfg : LoopCfg J) (d : Nat → Bool)
    (fuel iter : Nat) (st : LoopSt)
    (hd : cfg.is_disconnected = some d)
    (hdisc : (consumeChunks (some d) (cfg.provider iter).chunks st.counter
      ⟨cfg.model, "", [], none⟩).kind = .disconnected) :
    runIterations cfg (fuel + 1) iter st =
      ⟨st.openai_messages,
       st.events ++
         (consumeChunks (some d) (cfg.provider iter).chunks st.counter
           ⟨cfg.model, "", [], none⟩).events,
       st.persisted,
       (consumeChunks (some d) (cfg.provider iter).chunks st.counter
         ⟨cfg.model, "", [], none⟩).counter⟩ ∧
    (consumeChunks (some d) (cfg.provider iter).chunks st.counter
      ⟨cfg.model, "", [], none⟩).events.all AgentEvent.isTextDeltaEv = true ∧
    ∃ k, k < (cfg.provider iter).chunks.length ∧
      d (st.counter + k) = true ∧
      (∀ j, j < k → d (st.counter + j) = false) ∧
      (consumeChunks (some d) (cfg.provider iter).chunks st.counter
        ⟨cfg.model, "", [], none⟩).events =
        (consumeChunks none (List.take k (cfg.provider iter).chunks) 0
          ⟨cfg.model, "", [], none⟩).events := by
  refine ⟨?_, consume_events_all _ (fun s => rfl) _ _ _ _,
    consume_disconnected_boundary d _ st.counter _ hdisc⟩
  unfold runIterations
  rw [hd]
  dsimp only
  rw [hdisc]

/-- Induction backbone for the iteration cap: when every provider call
ends with a tool-call finish (and no exception, no disconnection), the run
burns all its fuel, appends only non-`done`/non-`error` events before the
single cap error, and persists exactly one assistant turn per iteration. -/
theorem runIterations_cap_shape {J : Type} (cfg : LoopCfg J)
    (hd : cfg.is_disconnected = none)
    (H : ∀ n c,
      (consumeChunks none (cfg.provider n).chunks c
        ⟨cfg.model, "", [], none⟩).acc.finish_reason = some "tool_calls" ∧
      (consumeChunks none (cfg.provider n).chunks c
        ⟨cfg.model, "", [], none⟩).acc.tool_calls ≠ [] ∧
      (cfg.provider n).exc = none) :
    ∀ (fuel iter : Nat) (st : LoopSt),
      ∃ pre,
        (runIterations cfg fuel iter st).events =
          st.events ++ pre ++ [.error (capMessage cfg.max_iterations)] ∧
        pre.all (fun e => !e.isDoneEv && !e.isErrorEv) = true ∧
        (runIterations cfg fuel iter st).persisted.countP
            (fun m => m.role = "assistant") =
          st.persisted.countP (fun m => m.role = "assistant") + fuel := by
  intro fuel
  induction fuel with
  | zero =>
    intro iter st
    exact ⟨[], by simp [runIterations, capMessage], rfl, by simp [runIterations]⟩
  | succ fuel ih =>
    intro iter st
    unfold runIterations
    rw [hd]
    dsimp only
    rw [consume_none_exhausted]
    dsimp only
    rw [(H iter st.counter).2.2]
    dsimp only
    rw [if_pos ⟨(H iter st.counter).1, (H iter st.counter).2.1⟩]
    rcases foldl_dispatch_shape cfg
      ((consumeChunks none (cfg.provider iter).chunks st.counter
        ⟨cfg.model, "", [], none⟩).acc.tool_calls)
      ⟨st.openai_messages ++
        [.assistant
          (if (consumeChunks none (cfg.provider iter).chunks st.counter
              ⟨cfg.model, "", [], none⟩).acc.accumulated_text = "" then none
           else some (consumeChunks none (cfg.provider iter).chunks st.counter
              ⟨cfg.model, "", [], none⟩).acc.accumulated_text)
          (some ((consumeChunks none (cfg.provider iter).chunks st.counter
              ⟨cfg.model, "", [], none⟩).acc.tool_calls.map
            (fun tc => ToolCallInfo.mk tc.id tc.name tc.arguments)))],
       st.events ++ (consumeChunks none (cfg.provider iter).chunks st.counter
         ⟨cfg.model, "", [], none⟩).events,
       st.persisted ++
        [⟨"assistant",
          (consumeChunks none (cfg.provider iter).chunks st.counter
            ⟨cfg.model, "", [], none⟩).acc.accumulated_text,
          some ((consumeChunks none (cfg.provider iter).chunks st.counter
              ⟨cfg.model, "", [], none⟩).acc.tool_calls.map
            (fun tc => ToolCallInfo.mk tc.id tc.name tc.arguments)), none⟩],
       (consumeChunks none (cfg.provider iter).chunks st.counter
         ⟨cfg.model, "", [], none⟩).counter⟩
      with ⟨M, D, P, hfold, hD, hP⟩
    rw [hfold]
    obtain ⟨pre', h1, h2, h3⟩ := ih (iter + 1)
      ⟨(st.openai_messages ++ _) ++ M,
       (st.events ++ (consumeChunks none (cfg.provider iter).chunks st.counter
         ⟨cfg.model, "", [], none⟩).events) ++ D,
       (st.persisted ++ _) ++ P,
       (consumeChunks none (cfg.provider iter).chunks st.counter
         ⟨cfg.model, "", [], none⟩).counter⟩
    refine ⟨(consumeChunks none (cfg.provider iter).chunks st.counter
        ⟨cfg.model, "", [], none⟩).events ++ D ++ pre', ?_, ?_, ?_⟩
    · rw [h1]
      simp [List.append_assoc]
    · rw [List.all_append, List.all_append,
        consume_events_all _ (fun s => rfl) none
          (cfg.provider iter).chunks st.counter ⟨cfg.model, "", [], none⟩,
        hD, h2]
      rfl
    · rw [h3]
      dsimp only
      rw [List.countP_append, List.countP_append]
      have hP0 : P.countP (fun m => m.role = "assistant") = 0 := by
        refine countP_zero_of_all P _ _ hP ?_
        intro a ha
        simp only [decide_eq_true_eq] at ha
        simp [ha]
      rw [hP0]
      simp only [List.countP_cons, List.countP_nil]
      simp
      omega

/-- **C5**: when every provider call of the run ends with a tool-call
finish (and never a natural stop, exception, or disconnect), the agent
loop emits exactly one terminal `error` event — the fixed
iteration-limit message — emits no `done` event, and persists exactly
`max_iterations` assistant turns (one per completed tool-call iteration,
nothing extra at the cap). -/
theorem C5_iteration_cap {J : Type} (cfg : LoopCfg J)
    (messages : List ChatMessage)
    (hd : cfg.is_disconnected = none)
    (H : ∀ n c,
      (consumeChunks none (cfg.provider n).chunks c
        ⟨cfg.model, "", [], none⟩).acc.finish_reason = some "tool_calls" ∧
      (consumeChunks none (cfg.provider n).chunks c
        ⟨cfg.model, "", [], none⟩).acc.tool_calls ≠ [] ∧
      (cfg.provider n).exc = none) :
    (∃ pre, (run_agent_loop cfg messages).events =
        pre ++ [.error (capMessage cfg.max_iterations)] ∧
      pre.all (fun e => !e.isDoneEv && !e.isErrorEv) = true) ∧
    (run_agent_loop cfg messages).events.countP AgentEvent.isDoneEv = 0 ∧
    (run_agent_loop cfg messages).events.countP AgentEvent.isErrorEv = 1 ∧
    (run_agent_loop cfg messages).persisted.countP
      (fun m => m.role = "assistant") = cfg.max_iterations := by
  obtain ⟨pre, h1, h2, h3⟩ := runIterations_cap_shape cfg hd H
    cfg.max_iterations 0 ⟨messages.map toMessageParam, [], [], 0⟩
  have h1' : (run_agent_loop cfg messages).events =
      pre ++ [.error (capMessage cfg.max_iterations)] := by
    unfold run_agent_loop
    rw [h1]
    rfl
  have hpre0 : ∀ (q : AgentEvent → Bool),
      (∀ a, (!a.isDoneEv && !a.isErrorEv) = true → q a = false) →
      pre.countP q = 0 := fun q hq => countP_zero_of_all pre _ q h2 hq
  refine ⟨⟨pre, h1', h2⟩, ?_, ?_, ?_⟩
  · rw [h1', List.countP_append,
      hpre0 AgentEvent.isDoneEv (by intro a ha; cases a <;> simp_all
        [AgentEvent.isDoneEv, AgentEvent.isErrorEv])]
    rfl
  · rw [h1', List.countP_append,
      hpre0 AgentEvent.isErrorEv (by intro a ha; cases a <;> simp_all
        [AgentEvent.isDoneEv, AgentEvent.isErrorEv])]
    rfl
  · unfold run_agent_loop
    rw [h3]
    simp

/-- Witness for C5 (Scenario D): capped at 3 iterations with every
provider call returning a tool-call finish, the run yields no `done`
event, exactly one `error` event, and persists exactly 3 assistant
turns. -/
theorem C5_iteration_cap_witness :
    (run_agent_loop (J := Unit)
      { provider := fun _ =>
          ⟨[⟨[⟨⟨none, some [⟨0, some "id1", some ⟨some "t", some "\x7b\x7d"⟩⟩]⟩,
            some "tool_calls"⟩], none⟩], none⟩
        model := "m"
        max_iterations := 3
        is_disconnected := none
        request_confirmation := none
        registry_get := fun _ => none
        json_loads := fun _ => some ()
        json_empty := () }
      []).events.countP AgentEvent.isDoneEv = 0 ∧
    (run_agent_loop (J := Unit)
      { provider := fun _ =>
          ⟨[⟨[⟨⟨none, some [⟨0, some "id1", some ⟨some "t", some "\x7b\x7d"⟩⟩]⟩,
            some "tool_calls"⟩], none⟩], none⟩
        model := "m"
        max_iterations := 3
        is_disconnected := none
        request_confirmation := none
        registry_get := fun _ => none
        json_loads := fun _ => some ()
        json_empty := () }
      []).events.countP AgentEvent.isErrorEv = 1 ∧
    (run_agent_loop (J := Unit)
      { provider := fun _ =>
          ⟨[⟨[⟨⟨none, some [⟨0, some "id1", some ⟨some "t", some "\x7b\x7d"⟩⟩]⟩,
            some "tool_calls"⟩], none⟩], none⟩
        model := "m"
        max_iterations := 3
        is_disconnected := none
        request_confirmation := none
        registry_get := fun _ => none
        json_loads := fun _ => some ()
        json_empty := () }
      []).persisted.countP (fun m => m.role = "assistant") = 3 := by
  have H : ∀ (n c : Nat),
      (consumeChunks none
        [⟨[⟨⟨none, some [⟨0, some "id1", some ⟨some "t", some "\x7b\x7d"⟩⟩]⟩,
          some "tool_calls"⟩], none⟩] c
        ⟨"m", "", [], none⟩).acc.finish_reason = some "tool_calls" ∧
      (consumeChunks none
        [⟨[⟨⟨none, some [⟨0, some "id1", some ⟨some "t", some "\x7b\x7d"⟩⟩]⟩,
          some "tool_calls"⟩], none⟩] c
        ⟨"m", "", [], none⟩).acc.tool_calls ≠ [] ∧
      (Option.none : Option String) = none := by
    intro n c
    obtain ⟨-, hacc, -⟩ := consume_none_counter_irrelevant
      [⟨[⟨⟨none, some [⟨0, some "id1", some ⟨some "t", some "\x7b\x7d"⟩⟩]⟩,
        some "tool_calls"⟩], none⟩] c 0 ⟨"m", "", [], none⟩
    refine ⟨?_, ?_, rfl⟩
    · rw [hacc]; decide
    · rw [hacc]; decide
  obtain ⟨-, h2, h3, h4⟩ := C5_iteration_cap (J := Unit)
    { provider := fun _ =>
        ⟨[⟨[⟨⟨none, some [⟨0, some "id1", some ⟨some "t", some "\x7b\x7d"⟩⟩]⟩,
          some "tool_calls"⟩], none⟩], none⟩
      model := "m"
      max_iterations := 3
      is_disconnected := none
      request_confirmation := none
      registry_get := fun _ => none
      json_loads := fun _ => some ()
      json_empty := () }
    [] rfl H
  exact ⟨h2, h3, h4⟩

/-- Witness for C6: a provider call that streams one text fragment and
then fails with message `boom` yields the text delta, exactly one `error`
event, and the salvaged assistant turn. -/
theorem C6_provider_failure_witness :
    runIterations (J := Unit)
      { provider := fun _ => ⟨[⟨[⟨⟨some "Hi", none⟩, none⟩], none⟩], some "boom"⟩
        model := "m"
        max_iterations := 25
        is_disconnected := none
        request_confirmation := none
        registry_get := fun _ => none
        json_loads := fun _ => some ()
        json_empty := () }
      1 0 ⟨[], [], [], 0⟩ =
      ⟨[], [.textDelta "Hi", .error "boom"],
       [⟨"assistant", "Hi", none, none⟩], 1⟩ := by
  have h := (C6_provider_failure (J := Unit)
    { provider := fun _ => ⟨[⟨[⟨⟨some "Hi", none⟩, none⟩], none⟩], some "boom"⟩
      model := "m"
      max_iterations := 25
      is_disconnected := none
      request_confirmation := none
      registry_get := fun _ => none
      json_loads := fun _ => some ()
      json_empty := () }
    0 0 ⟨[], [], [], 0⟩ "boom" rfl (by decide)).1
  rw [h]
  decide

/-- Witness for C9: with two text fragments and a disconnect predicate
firing at the second poll, the run emits only the first text delta,
persists nothing, and ends silently. -/
theorem C9_disconnect_silent_witness :
    runIterations (J := Unit)
      { provider := fun _ =>
          ⟨[⟨[⟨⟨some "A", none⟩, none⟩], none⟩,
            ⟨[⟨⟨some "B", none⟩, none⟩], none⟩], none⟩
        model := "m"
        max_iterations := 25
        is_disconnected := some (fun c => decide (1 ≤ c))
        request_confirmation := none
        registry_get := fun _ => none
        json_loads := fun _ => some ()
        json_empty := () }
      1 0 ⟨[], [], [], 0⟩ =
      ⟨[], [.textDelta "A"], [], 1⟩ := by
  have h := (C9_disconnect_silent (J := Unit)
    { provider := fun _ =>
        ⟨[⟨[⟨⟨some "A", none⟩, none⟩], none⟩,
          ⟨[⟨⟨some "B", none⟩, none⟩], none⟩], none⟩
      model := "m"
      max_iterations := 25
      is_disconnected := some (fun c => decide (1 ≤ c))
      request_confirmation := none
      registry_get := fun _ => none
      json_loads := fun _ => some ()
      json_empty := () }
    (fun c => decide (1 ≤ c)) 0 0 ⟨[], [], [], 0⟩ rfl (by decide)).1
  rw [h]
  decide

theorem grepScanLines_count (search : String → Bool) (rel : String) :
    ∀ (lines : List (Nat × String)) (ms : List String),
      ms.length < MAX_MATCHES →
      (MAX_MATCHES ≤ ms.length + (lines.filter (fun p => search p.2)).length →
        (grepScanLines search rel lines ms).2 = true ∧
        (grepScanLines search rel lines ms).1.length = MAX_MATCHES + 1) ∧
      (ms.length + (lines.filter (fun p => search p.2)).length < MAX_MATCHES →
        (grepScanLines search rel lines ms).2 = false ∧
        (grepScanLines search rel lines ms).1.length =
          ms.length + (lines.filter (fun p => search p.2)).length) := by
  intro lines
  induction lines with
  | nil =>
    intro ms hlt
    refine ⟨fun h => absurd h (by simp; omega), fun _ => ⟨rfl, by simp [grepScanLines]⟩⟩
  | cons p rest ih =>
    intro ms hlt
    rcases p with ⟨no, line⟩
    unfold grepScanLines
    dsimp only
    by_cases hs : search line = true
    · rw [if_pos hs]
      by_cases htr : (ms ++ [rel ++ ":" ++ toString no ++ ": " ++ clipLine line]).length
          ≥ MAX_MATCHES
      · rw [if_pos htr]
        have hms : ms.length + 1 = MAX_MATCHES := by
          simp only [List.length_append, List.length_cons, List.length_nil] at htr
          omega
        constructor
        · intro _
          refine ⟨rfl, ?_⟩
          simp only [List.length_append, List.length_cons, List.length_nil]
          omega
        · intro hcon
          exfalso
          rw [List.filter_cons_of_pos (by simpa using hs)] at hcon
          simp only [List.length_cons] at hcon
          omega
      · rw [if_neg htr]
        have hlt' : (ms ++ [rel ++ ":" ++ toString no ++ ": " ++ clipLine line]).length
            < MAX_MATCHES := by
          simp only [List.length_append, List.length_cons, List.length_nil] at htr ⊢
          omega
        obtain ⟨ih1, ih2⟩ := ih (ms ++ [rel ++ ":" ++ toString no ++ ": " ++ clipLine line]) hlt'
        rw [List.filter_cons_of_pos (by simpa using hs)]
        simp only [List.length_append, List.length_cons, List.length_nil] at ih1 ih2 ⊢
        constructor
        · intro h
          exact ih1 (by omega)
        · intro h
          obtain ⟨ha, hb⟩ := ih2 (by omega)
          exact ⟨ha, by omega⟩
    · rw [if_neg hs]
      rw [List.filter_cons_of_neg (by simpa using hs)]
      exact ih ms hlt

theorem grepScanFiles_count (fs : FSModel) (search : String → Bool)
    (base : RawPath) (abs : Bool) :
    ∀ (files : List FsEntry) (ms : List String) (n : Nat),
      ms.length < MAX_MATCHES →
      (MAX_MATCHES ≤ ms.length + totalMatchCount fs search abs files →
        (grepScanFiles fs search base abs files ms n).1.length = MAX_MATCHES + 1) ∧
      (ms.length + totalMatchCount fs search abs files < MAX_MATCHES →
        (grepScanFiles fs search base abs files ms n).1.length =
          ms.length + totalMatchCount fs search abs files) := by
  intro files
  induction files with
  | nil =>
    intro ms n hlt
    refine ⟨fun h => absurd h (by simp [totalMatchCount]; omega),
      fun _ => by simp [grepScanFiles, totalMatchCount]⟩
  | cons e rest ih =>
    intro ms n hlt
    unfold grepScanFiles totalMatchCount
    cases hrd : fs.read_text ⟨abs, e.parts⟩ with
    | error exc =>
      obtain ⟨ih1, ih2⟩ := ih ms (n + 1) hlt
      constructor
      · intro h
        exact ih1 (by simpa using h)
      · intro h
        obtain h2 := ih2 (by simpa using h)
        simpa using h2
    | ok text =>
      obtain ⟨sl1, sl2⟩ := grepScanLines_count search (relStr base e.parts)
        (enumLines text) ms hlt
      rcases hscan : grepScanLines search (relStr base e.parts) (enumLines text) ms
        with ⟨ms', tr⟩
      dsimp only
      rw [hscan]
      rw [hscan] at sl1 sl2
      dsimp only at sl1 sl2 ⊢
      have hfc : (List.filter (fun p => search p.2) (enumLines text)).length =
          fileMatchCount search text := rfl
      rw [hfc] at sl1 sl2
      by_cases hcross : MAX_MATCHES ≤ ms.length + fileMatchCount search text
      · obtain ⟨htr, hlen⟩ := sl1 (by omega)
        rw [htr]
        rw [if_pos rfl]
        dsimp only
        constructor
        · intro _
          exact hlen
        · intro hcon
          exfalso
          have : 0 ≤ totalMatchCount fs search abs rest := Nat.zero_le _
          omega
      · obtain ⟨htr, hlen⟩ := sl2 (by omega)
        rw [htr]
        rw [if_neg (by decide)]
        obtain ⟨ih1, ih2⟩ := ih ms' (n + 1) (by omega)
        rw [hlen] at ih1 ih2
        constructor
        · intro h
          exact ih1 (by omega)
        · intro h
          rw [ih2 (by omega)]
          omega

theorem globCollect_count (base : RawPath) :
    ∀ (es : List FsEntry) (rs : List String),
      rs.length < MAX_RESULTS →
      (MAX_RESULTS ≤ rs.length + (es.filter globKeep).length →
        (globCollect base es rs).length = MAX_RESULTS + 1) ∧
      (rs.length + (es.filter globKeep).length < MAX_RESULTS →
        (globCollect base es rs).length =
          rs.length + (es.filter globKeep).length) := by
  intro es
  induction es with
  | nil =>
    intro rs hlt
    refine ⟨fun h => absurd h (by simp; omega), fun _ => by simp [globCollect]⟩
  | cons e rest ih =>
    intro rs hlt
    unfold globCollect
    dsimp only
    by_cases hskip : e.parts.any (fun part => SKIP_DIRS.contains part) = true
    · rw [if_pos hskip]
      rw [show List.filter globKeep (e :: rest) = List.filter globKeep rest from by
        rw [List.filter_cons_of_neg]
        unfold globKeep
        rw [hskip]
        simp]
      exact ih rs hlt
    · rw [if_neg hskip]
      have h1 : (e.parts.any fun part => SKIP_DIRS.contains part) = false := by
        cases h : e.parts.any fun part => SKIP_DIRS.contains part
        · rfl
        · exact absurd h hskip
      by_cases hf : e.is_file = false
      · rw [if_pos hf]
        rw [show List.filter globKeep (e :: rest) = List.filter globKeep rest from by
          rw [List.filter_cons_of_neg]
          unfold globKeep
          rw [hf]
          simp]
        exact ih rs hlt
      · rw [if_neg hf]
        have h2 : e.is_file = true := by
          cases h : e.is_file
          · exact absurd h hf
          · rfl
        rw [show List.filter globKeep (e :: rest) =
            e :: List.filter globKeep rest from by
          rw [List.filter_cons_of_pos]
          unfold globKeep
          rw [h1, h2]
          rfl]
        by_cases htr : (rs ++ [relStr base e.parts]).length ≥ MAX_RESULTS
        · rw [if_pos htr]
          simp only [List.length_append, List.length_cons, List.length_nil] at htr ⊢
          constructor
          · intro _
            omega
          · intro hcon
            exfalso
            omega
        · rw [if_neg htr]
          obtain ⟨ih1, ih2⟩ := ih (rs ++ [relStr base e.parts])
            (by simp only [List.length_append, List.length_cons,
              List.length_nil] at htr ⊢; omega)
          simp only [List.length_append, List.length_cons, List.length_nil]
            at ih1 ih2 htr ⊢
          constructor
          · intro h
            exact ih1 (by omega)
          · intro h
            rw [ih2 (by omega)]
            omega

/-- **C10**: when `grep_search` reaches its 200-match cap, the truncation
marker is appended to the match list before `_format_result` computes the
header count, so the header reports 201 — one more than the cap, counting
the marker line; likewise a `glob_search` that reaches its 500-result cap
reports 501 file(s). -/
theorem C10_truncation_header (fs : FSModel) (work_dir : RawPath)
    (pat raw : String) (inc : Option String)
    (recompile : String → Except String (String → Bool)) (search : String → Bool)
    (resolved : RawPath)
    (gpat graw : String) (gresolved : RawPath) (raw_matches : List FsEntry)
    (hpat : pat ≠ "") (hre : recompile pat = .ok search)
    (hres : toolResolvePath fs raw work_dir = some resolved)
    (hex : fs.pexists resolved = true)
    (htot : MAX_MATCHES ≤ totalMatchCount fs search resolved.absolute
      (walkFiles fs resolved inc))
    (hgpat : gpat ≠ "")
    (hgres : toolResolvePath fs graw work_dir = some gresolved)
    (hgex : fs.pexists gresolved = true) (hgdir : fs.is_dir gresolved = true)
    (hglob : fs.glob gresolved gpat = .ok raw_matches)
    (hgcnt : MAX_RESULTS ≤ ((sortEntries raw_matches).filter globKeep).length) :
    startswith (grepSearchExecute fs recompile ⟨pat, raw, inc⟩ work_dir)
      "Found 201 match(es)" = true ∧
    startswith (globSearchExecute fs ⟨gpat, graw⟩ work_dir)
      "Found 501 file(s)" = true := by
  constructor
  · simp only [grepSearchExecute]
    rw [if_neg hpat, hre]
    dsimp only
    rw [hres]
    dsimp only
    rw [if_neg (by simp [hex])]
    have hcount := (grepScanFiles_count fs search (fs.resolve work_dir)
      resolved.absolute (walkFiles fs resolved inc) [] 0 (by decide)).1
      (by simpa using htot)
    rcases hscan : grepScanFiles fs search (fs.resolve work_dir)
      resolved.absolute (walkFiles fs resolved inc) [] 0 with ⟨ms, n, tr⟩
    rw [hscan] at hcount
    dsimp only at hcount ⊢
    unfold grepFormatResult
    rw [if_neg (by
      intro hnil
      rw [hnil] at hcount
      simp [MAX_MATCHES] at hcount)]
    rw [hcount]
    rw [show toString (MAX_MATCHES + 1) = "201" from by decide]
    rw [show (("Found " ++ "201") ++ " match(es) for '") =
      "Found 201 match(es) for '" from by decide]
    simp only [String.append_assoc]
    rw [startswith_append_left _ _ _ (by decide)]
    decide
  · simp only [globSearchExecute]
    rw [if_neg hgpat]
    rw [hgres]
    dsimp only
    rw [if_neg (by simp [hgex]), if_neg (by simp [hgdir]), hglob]
    dsimp only
    have hcount := (globCollect_count (fs.resolve work_dir)
      (sortEntries raw_matches) [] (by decide)).1 (by simpa using hgcnt)
    rw [if_neg (by
      intro hnil
      rw [hnil] at hcount
      simp [MAX_RESULTS] at hcount)]
    rw [hcount]
    rw [show toString (MAX_RESULTS + 1) = "501" from by decide]
    rw [show (("Found " ++ "501") ++ " file(s) matching '") =
      "Found 501 file(s) matching '" from by decide]
    simp only [String.append_assoc]
    rw [startswith_append_left _ _ _ (by decide)]
    decide

set_option maxRecDepth 4096 in
/-- Witness for C10: a single searched file of 200 matching lines makes
`grep_search` report "Found 201 match(es)"; a glob yielding 500 kept files
makes `glob_search` report "Found 501 file(s)". -/
theorem C10_truncation_header_witness :
    startswith
      (grepSearchExecute
        { resolve := fun p => p
          pexists := fun _ => true
          is_file := fun p => p.comps = ["wd", "d"]
          is_dir := fun p => p.comps = ["wd", "g"]
          st_size := fun _ => 0
          read_text := fun _ => .ok (String.intercalate "\n" (List.replicate 200 "x"))
          iterdir := fun _ => .ok []
          rglob_all := fun _ => []
          glob := fun _ _ => .ok (List.replicate 500 ⟨["wd", "f"], true⟩)
          match_glob := fun _ _ => true }
        (fun _ => .ok (fun _ => true)) ⟨"x", "d", none⟩ ⟨true, ["wd"]⟩)
      "Found 201 match(es)" = true ∧
    startswith
      (globSearchExecute
        { resolve := fun p => p
          pexists := fun _ => true
          is_file := fun p => p.comps = ["wd", "d"]
          is_dir := fun p => p.comps = ["wd", "g"]
          st_size := fun _ => 0
          read_text := fun _ => .ok (String.intercalate "\n" (List.replicate 200 "x"))
          iterdir := fun _ => .ok []
          rglob_all := fun _ => []
          glob := fun _ _ => .ok (List.replicate 500 ⟨["wd", "f"], true⟩)
          match_glob := fun _ _ => true }
        ⟨"*", "g"⟩ ⟨true, ["wd"]⟩)
      "Found 501 file(s)" = true :=
  C10_truncation_header
    { resolve := fun p => p
      pexists := fun _ => true
      is_file := fun p => p.comps = ["wd", "d"]
      is_dir := fun p => p.comps = ["wd", "g"]
      st_size := fun _ => 0
      read_text := fun _ => .ok (String.intercalate "\n" (List.replicate 200 "x"))
      iterdir := fun _ => .ok []
      rglob_all := fun _ => []
      glob := fun _ _ => .ok (List.replicate 500 ⟨["wd", "f"], true⟩)
      match_glob := fun _ _ => true }
    ⟨true, ["wd"]⟩ "x" "d" none (fun _ => .ok (fun _ => true)) (fun _ => true)
    ⟨true, ["wd", "d"]⟩ "*" "g" ⟨true, ["wd", "g"]⟩
    (List.replicate 500 ⟨["wd", "f"], true⟩)
    (by decide) rfl (by decide) (by decide) (by decide)
    (by decide) (by decide) (by decide) (by decide) rfl (by decide)

end VoxPilot
